import Mathlib

/-!
Verification development for the MT4 Manager REST API wrapper
(`src/MT4Wrapper/MT4Wrapper.cpp` and `src/MT4Wrapper/MT4Wrapper.h`).

The C++ façade owns a process-wide session (a `g_initialized` flag, a
manager pointer `g_pManager`, a last-error string `g_lastError`, and a
`g_mockConnected` flag) and exposes C entry points gated on that session
state.  We embed the façade shallowly:

* The session globals become the `MT4State` structure.
* The remote MT4 Manager capability (external `CManagerInterface`, whose
  header `MT4ManagerAPI.h` is not part of this repository) becomes the
  `Remote` oracle structure: one field per remote operation the façade
  invokes, giving the value that call returns.  Ambient inputs used by the
  façade (`time(NULL)`, `GetCurrentDirectoryA`) are oracle fields as well.
* Each entry point becomes a Lean function from the session state, the
  oracle and its C arguments to an `OpResult`: the returned status code,
  the updated session state, the caller buffer content (`none` when the
  buffer was not written) and the ordered list of remote-capability calls
  performed.
* Nullable pointer arguments become `Option` arguments; the output buffer
  is a null flag plus a capacity.
* C++ `double` arithmetic for the lot-to-volume conversion in trade
  transactions is modelled exactly: `fl` is IEEE-754 binary64
  round-to-nearest-even over `ℚ` (normal range; the inputs of interest are
  far from overflow and subnormals).  `double` record fields that are only
  ever interpolated into JSON text (balances, prices in quote output) are
  modelled as integers, since no verified property depends on their text;
  `double` values that flow back into remote calls keep exact `ℚ` values.
* `strcpy_s` into a sufficiently large buffer copies the string; on a
  runtime-constraint violation (source length not below the capacity) it
  empties the destination and, with a non-aborting constraint handler,
  control continues; `strcpyS` models that behaviour.
* The C++ `catch` blocks are not modelled: the oracle returns values, it
  does not throw.  No property below depends on the exception paths.

Numeric constants for the façade's own return codes are from
`src/MT4Wrapper/MT4Wrapper.h`.  `RET_OK`, `OP_BUY` and `TT_ORDER_CLOSE_BY`
come from the external `MT4ManagerAPI.h`; their numeric values are not
observable in any property proved here, only their identity.
-/

/-! ## Return codes (src/MT4Wrapper/MT4Wrapper.h, lines 37-45) -/

def MT4_SUCCESS : Int := 0
def MT4_ERROR_NOT_INITIALIZED : Int := -1
def MT4_ERROR_ALREADY_INITIALIZED : Int := -2
def MT4_ERROR_CONNECTION_FAILED : Int := -3
def MT4_ERROR_LOGIN_FAILED : Int := -4
def MT4_ERROR_NOT_CONNECTED : Int := -5
def MT4_ERROR_INVALID_PARAMETER : Int := -6
def MT4_ERROR_BUFFER_TOO_SMALL : Int := -7
def MT4_ERROR_INTERNAL : Int := -99

/-- Remote success status from the external `MT4ManagerAPI.h`. -/
def RET_OK : Int := 0

/-- Trade command constant from the external `MT4ManagerAPI.h`. -/
def OP_BUY : Int := 0

/-- Close-by transaction type constant from the external `MT4ManagerAPI.h`. -/
def TT_ORDER_CLOSE_BY : Int := 11

/-! ## Record structures (shapes used by MT4Wrapper.cpp) -/

/-- UserRecord fields the façade reads or writes.  `balance` and `credit`
are `double` in the external API; they are only interpolated into JSON
text here, so they are modelled as integers. -/
structure UserRecord where
  login : Int
  name : String
  email : String
  password : String
  group : String
  balance : Int
  credit : Int
  leverage : Int
  enable : Int
  enable_change_password : Int
deriving DecidableEq

/-- Zero-filled `UserRecord` (the C `= {0}` initialisation). -/
def defUser : UserRecord :=
  { login := 0, name := "", email := "", password := "", group := ""
  , balance := 0, credit := 0, leverage := 0, enable := 0
  , enable_change_password := 0 }

/-- TradeRecord fields the façade reads.  `close_price` flows back into a
trade transaction, so it keeps an exact `ℚ` value; `profit` is only
printed and is modelled as an integer. -/
structure TradeRecord where
  order : Int
  login : Int
  symbol : String
  volume : Int
  profit : Int
  close_price : ℚ
deriving DecidableEq

/-- ConSymbol fields serialized by `MT4_GetSymbols`.  The C field `type`
is renamed `stype` (`type` is reserved in Lean); `contract_size` is a
`double` only interpolated into text, modelled as an integer. -/
structure ConSymbol where
  symbol : String
  description : String
  digits : Int
  contract_size : Int
  currency : String
  stype : Int
deriving DecidableEq

/-- SymbolInfo fields used by `MT4_GetQuote`.  `bid` and `ask` are
`double`s only compared to zero and interpolated into text, modelled as
integers; `digits` feeds a power of ten, modelled as `Nat`. -/
structure SymbolInfo where
  symbol : String
  bid : Int
  ask : Int
  spread : Int
  digits : Nat
  lasttime : Int
deriving DecidableEq

/-- Zero-filled `SymbolInfo` (the C `= {0}` initialisation). -/
def defSymbolInfo : SymbolInfo :=
  { symbol := "", bid := 0, ask := 0, spread := 0, digits := 0, lasttime := 0 }

/-- TickInfo fields used by `MT4_GetQuote`. -/
structure TickInfo where
  bid : Int
  ask : Int
  ctm : Int
deriving DecidableEq

/-- TradeTransInfo fields the façade fills.  The C field `type` is renamed
`ttype`.  Price-like fields keep exact `ℚ` values. -/
structure TradeTransInfo where
  ttype : Int
  cmd : Int
  order : Int
  orderby : Int
  volume : Int
  price : ℚ
  sl : ℚ
  tp : ℚ
  symbol : String
  comment : String
deriving DecidableEq

/-! ## Session state and remote-call trace -/

/-- The session globals of MT4Wrapper.cpp: `g_initialized`, `g_pManager`
(modelled as the liveness flag `managerLive`), `g_lastError` and
`g_mockConnected`.  `g_bypassMode` is declared in the source but never
read or written outside its initialiser, so it is omitted. -/
structure MT4State where
  initFlag : Bool
  managerLive : Bool
  mockConnected : Bool
  lastError : String
deriving DecidableEq

/-- Process start state: no session globals set. -/
def initState : MT4State :=
  { initFlag := false, managerLive := false, mockConnected := false, lastError := "" }

/-- One call into the remote MT4 Manager capability, with the arguments
the façade passes.  `memFree` is the release of the single remote-owned
block an operation may hold. -/
inductive RCall where
  | isConnectedQ : RCall
  | workingDirectory : String → RCall
  | connect : String → RCall
  | login : Int → String → RCall
  | disconnectC : RCall
  | pingC : RCall
  | releaseC : RCall
  | errorDescription : Int → RCall
  | userRecordsRequest : List Int → RCall
  | usersRequest : RCall
  | tradesUserHistory : Int → Int → Int → RCall
  | tradesRequest : RCall
  | tradeRecordGet : Int → RCall
  | tradeTransaction : TradeTransInfo → RCall
  | userRecordNew : UserRecord → RCall
  | userRecordGet : Int → RCall
  | userRecordUpdate : UserRecord → RCall
  | symbolsRefresh : RCall
  | symbolsGetAll : RCall
  | symbolInfoUpdated : RCall
  | tickInfoLast : String → RCall
  | symbolInfoGet : String → RCall
  | memFree : RCall
deriving DecidableEq

/-- Oracle for the remote capability and the ambient environment: the
value each external call made by the façade returns.  A `none` in an
`Option`-typed field is a NULL pointer result or a non-`RET_OK` status of
a get-style call. -/
structure Remote where
  isConnectedR : Bool
  connectRet : Int
  loginRet : Int
  disconnectRet : Int
  pingRet : Int
  errorDesc : Int → Option String
  cwd : Option String
  now : Int
  userRecordsReq : Option (List UserRecord)
  usersReq : Option (List UserRecord)
  tradesUserHist : Option (List TradeRecord)
  tradesReq : Option (List TradeRecord)
  tradeRecGet : Int → Option TradeRecord
  tradeTransRet : TradeTransInfo → Int
  tradeTransOrderOut : Int
  userRecNew : UserRecord → Int
  userRecGet : Int → Option UserRecord
  userRecUpdate : UserRecord → Int
  symbolsAll : Option (List ConSymbol)
  symbolInfoUpd : List SymbolInfo
  tickLast : String → Option (List TickInfo)
  symbolInfoGetR : String → Option SymbolInfo
  wsaOk : Bool
  factoryValid : Bool
  createOk : Bool

/-- Result of one façade entry point: status code, updated session state,
caller buffer content (`none` when the buffer was not written) and the
remote calls performed, in order. -/
structure OpResult where
  ret : Int
  state : MT4State
  buffer : Option String
  calls : List RCall
deriving DecidableEq

/-! ## Small helpers shared by the operations -/

/-- The `SetError` helper of MT4Wrapper.cpp (line 21). -/
def setErr (s : MT4State) (e : String) : MT4State :=
  { s with lastError := e }

/-- The recurring gate `!g_initialized || !g_pManager`. -/
def notInitGate (s : MT4State) : Bool :=
  !(s.initFlag && s.managerLive)

/-- The `SafeIsConnected` helper (MT4Wrapper.cpp line 26): false without a
remote call when the gate fails, otherwise the remote `IsConnected`
answer.  The catch-all that also returns false is not modelled. -/
def safeIsConnected (s : MT4State) (r : Remote) : Bool :=
  if notInitGate s then false else r.isConnectedR

/-- Failure exit: `SetError(msg); return code;` with the remote calls made
up to that point. -/
def fail (s : MT4State) (code : Int) (msg : String) (cs : List RCall) : OpResult :=
  { ret := code, state := setErr s msg, buffer := none, calls := cs }

/-- Success exit of a bufferless operation: `SetError(""); return MT4_SUCCESS;`. -/
def okNoBuf (s : MT4State) (cs : List RCall) : OpResult :=
  { ret := MT4_SUCCESS, state := setErr s "", buffer := none, calls := cs }

/-- Model of `strcpy_s(buffer, cap, src)`: the copy requires the source
length to be strictly below the capacity; a runtime-constraint violation
empties the destination (and control continues under a non-aborting
constraint handler). -/
def strcpyS (cap : Int) (src : String) : String :=
  if (src.length : Int) < cap then src else ""

/-- The `ErrorDescription` pattern `errorDesc ? errorDesc : fallback`. -/
def descOr (r : Remote) (code : Int) (fallback : String) : String :=
  (r.errorDesc code).getD fallback

/-- The recurring bounded-serialization tail of the record operations:
build the full text, compare `result.length() >= (size_t)bufferSize`,
fail with BufferTooSmall without touching the buffer, or copy the text.
`freeFail`/`freeOk` record whether that exit path calls `MemFree` on the
remote-owned block. -/
def boundedEmit (s : MT4State) (cap : Int) (text : String) (pre : List RCall)
    (freeFail : Bool) (freeOk : Bool) (failMsg : String) : OpResult :=
  if cap ≤ (text.length : Int) then
    { ret := MT4_ERROR_BUFFER_TOO_SMALL, state := setErr s failMsg, buffer := none
    , calls := pre ++ (if freeFail then [RCall.memFree] else []) }
  else
    { ret := MT4_SUCCESS, state := setErr s "", buffer := some text
    , calls := pre ++ (if freeOk then [RCall.memFree] else []) }

/-- The empty-result-set exit of the listing operations:
`strcpy_s(buffer, bufferSize, "[]"); SetError(""); return MT4_SUCCESS;` —
with no capacity check before the copy. -/
def emitArr (s : MT4State) (cap : Int) (pre : List RCall) : OpResult :=
  { ret := MT4_SUCCESS, state := setErr s "", buffer := some (strcpyS cap "[]")
  , calls := pre }

/-! ## String helpers: std::string::find, substr, atoi -/

/-- First index at or after the current position where `pat` occurs, over
character lists (`std::string::find`). -/
def subFindAux : List Char → List Char → Nat → Option Nat
  | hay, pat, i =>
    if pat.isPrefixOf hay then some i
    else
      match hay with
      | [] => none
      | _ :: t => subFindAux t pat (i + 1)

/-- Model of `json.find(pat, start)`. -/
def findFrom (s : String) (pat : String) (start : Nat) : Option Nat :=
  match subFindAux (s.toList.drop start) pat.toList 0 with
  | some i => some (start + i)
  | none => none

/-- Model of `json.find(pat)`. -/
def findSub (s : String) (pat : String) : Option Nat :=
  findFrom s pat 0

/-- Model of `json.substr(start, len)`. -/
def substrM (s : String) (start : Nat) (len : Nat) : String :=
  String.mk ((s.toList.drop start).take len)

/-- Characters `atoi` skips before the number. -/
def isSpaceC (c : Char) : Bool :=
  c = ' ' || c = '\t' || c = '\n' || c = '\r' || c = '\x0b' || c = '\x0c'

/-- Leading-digit accumulation of `atoi`. -/
def digitsAcc : List Char → Int → Int
  | [], acc => acc
  | c :: cs, acc =>
    if c.isDigit then digitsAcc cs (acc * 10 + (c.toNat - '0'.toNat : Int))
    else acc

/-- Model of `atoi` applied to the tail of the input starting at an
offset: skip whitespace, optional sign, then leading digits (0 when no
digit follows). -/
def atoiM (s : String) : Int :=
  let cs := s.toList.dropWhile isSpaceC
  match cs with
  | '-' :: rest => -(digitsAcc rest 0)
  | '+' :: rest => digitsAcc rest 0
  | rest => digitsAcc rest 0

/-- Tail of a string from a character offset (`json.c_str() + pos`). -/
def strDrop (s : String) (n : Nat) : String :=
  String.mk (s.toList.drop n)

/-! ## IEEE-754 binary64 model for the lot-to-volume conversion -/

/-- Binary exponent of a positive rational: the unique `e` with
`2 ^ e ≤ q < 2 ^ (e + 1)`, found by bounded doubling/halving. The fuel
covers the full binary64 exponent range. -/
def binExpAux : Nat → ℚ → Int
  | 0, _ => 0
  | n + 1, q =>
    if q < 1 then binExpAux n (2 * q) - 1
    else if 2 ≤ q then binExpAux n (q / 2) + 1
    else 0

/-- Round a rational to the nearest integer, ties to even. -/
def rne (q : ℚ) : Int :=
  let f := ⌊q⌋
  let frac := q - f
  if frac < 1 / 2 then f
  else if 1 / 2 < frac then f + 1
  else if f % 2 = 0 then f else f + 1

/-- IEEE-754 binary64 rounding (round to nearest, ties to even) of a
rational in the normal range: 53 significant bits. -/
def fl (q : ℚ) : ℚ :=
  if q = 0 then 0
  else
    let e : Int := binExpAux 2200 |q|
    let m : Int := rne (|q| * (2 : ℚ) ^ (52 - e))
    (if q < 0 then (-1 : ℚ) else 1) * (m : ℚ) * (2 : ℚ) ^ (e - 52)

/-- Truncation toward zero (the C `(int)` conversion of a `double`). -/
def truncQ (q : ℚ) : Int :=
  if q < 0 then ⌈q⌉ else ⌊q⌋

/-- Reduction into 32-bit two's-complement range. -/
def wrap32 (n : Int) : Int :=
  ((n + 2 ^ 31) % 2 ^ 32) - 2 ^ 31

/-- The lot-to-volume translation `(int)(volume * 100)` of
`MT4_OpenTrade` (line 451) and `MT4_CloseTrade` (line 517): the argument
is the exact value of the caller's `double`, `100` is exact, the product
is rounded as a `double` and converted to a 32-bit integer by truncation
toward zero. -/
def lotsToVolume (v : ℚ) : Int :=
  wrap32 (truncQ (fl (v * 100)))

/-! ## JSON rendering (the stringstream bodies, braces written as escapes) -/

/-- Comma-join of rendered records (the `if (i > 0) json << ","` loop). -/
def joinComma : List String → String
  | [] => ""
  | [x] => x
  | x :: xs => x ++ "," ++ joinComma xs

/-- Single-user JSON of `MT4_GetUserInfo` (lines 270-276). -/
def userJson (u : UserRecord) : String :=
  "\x7b\"login\":" ++ toString u.login
    ++ ",\"name\":\"" ++ u.name ++ "\""
    ++ ",\"email\":\"" ++ u.email ++ "\""
    ++ ",\"balance\":" ++ toString u.balance
    ++ ",\"credit\":" ++ toString u.credit
    ++ ",\"leverage\":" ++ toString u.leverage
    ++ ",\"group\":\"" ++ u.group ++ "\"\x7d"

/-- Per-user JSON of `MT4_GetAllUsers` (lines 326-328). -/
def shortUserJson (u : UserRecord) : String :=
  "\x7b\"login\":" ++ toString u.login
    ++ ",\"name\":\"" ++ u.name ++ "\""
    ++ ",\"balance\":" ++ toString u.balance ++ "\x7d"

/-- Array JSON of `MT4_GetAllUsers`, capped at 100 users. -/
def usersArrJson (us : List UserRecord) : String :=
  "[" ++ joinComma ((us.take 100).map shortUserJson) ++ "]"

/-- Per-trade JSON of `MT4_GetTrades` (lines 391-395). -/
def tradeJson (t : TradeRecord) : String :=
  "\x7b\"order\":" ++ toString t.order
    ++ ",\"login\":" ++ toString t.login
    ++ ",\"symbol\":\"" ++ t.symbol ++ "\""
    ++ ",\"volume\":" ++ toString t.volume
    ++ ",\"profit\":" ++ toString t.profit ++ "\x7d"

/-- Array JSON of `MT4_GetTrades`, capped at 100 trades. -/
def tradesArrJson (ts : List TradeRecord) : String :=
  "[" ++ joinComma ((ts.take 100).map tradeJson) ++ "]"

/-- Per-symbol JSON of `MT4_GetSymbols` (lines 791-796). -/
def symJson (c : ConSymbol) : String :=
  "\x7b\"symbol\":\"" ++ c.symbol ++ "\""
    ++ ",\"description\":\"" ++ c.description ++ "\""
    ++ ",\"digits\":" ++ toString c.digits
    ++ ",\"contractSize\":" ++ toString c.contract_size
    ++ ",\"currency\":\"" ++ c.currency ++ "\""
    ++ ",\"type\":" ++ toString c.stype ++ "\x7d"

/-- Array JSON of `MT4_GetSymbols`, capped at 50 symbols. -/
def symsArrJson (cs : List ConSymbol) : String :=
  "[" ++ joinComma ((cs.take 50).map symJson) ++ "]"

/-- Quote JSON of `MT4_GetQuote` (all three output paths share this
shape). -/
def quoteJson (sym : String) (bid ask spread : Int) (digits : Nat) (time : Int) : String :=
  "\x7b\"symbol\":\"" ++ sym ++ "\","
    ++ "\"bid\":" ++ toString bid ++ ","
    ++ "\"ask\":" ++ toString ask ++ ","
    ++ "\"spread\":" ++ toString spread ++ ","
    ++ "\"digits\":" ++ toString digits ++ ","
    ++ "\"time\":" ++ toString time ++ "\x7d"

/-- Order JSON of `MT4_OpenTrade` (line 465). -/
def orderJson (order : Int) : String :=
  "\x7b\"order\":" ++ toString order ++ "\x7d"

/-- Response JSON of `MT4_CreateUser` (line 613). -/
def createUserResp (login : Int) : String :=
  "\x7b\"success\":true,\"login\":" ++ toString login ++ "\x7d"

/-! ## The façade operations (MT4Wrapper.cpp) -/

/-- Models `MT4_Initialize` (lines 38-102): Winsock startup, factory
construction and validation, manager creation, each with rollback on
failure; marks the session live on success.  The rollback steps touch
only provider-side resources, not the remote capability, so the trace is
empty. -/
def MT4_Init (s : MT4State) (r : Remote) : OpResult :=
  if s.initFlag then
    fail s MT4_ERROR_ALREADY_INITIALIZED "Already initialized" []
  else if !r.wsaOk then
    fail s MT4_ERROR_INTERNAL "Failed to initialize Winsock" []
  else if !r.factoryValid then
    fail s MT4_ERROR_INTERNAL "Failed to load mtmanapi.dll" []
  else if !r.createOk then
    fail s MT4_ERROR_INTERNAL "Failed to create manager instance" []
  else
    { ret := MT4_SUCCESS
    , state := { s with initFlag := true, managerLive := true, lastError := "" }
    , buffer := none, calls := [] }

/-- Models `MT4_Shutdown` (lines 104-124): releases the manager when
live, tears down the factory, clears every session flag and the
last-error text.  The C function returns `void`; the result code is
fixed at `MT4_SUCCESS` here. -/
def MT4_Shutdown (s : MT4State) : OpResult :=
  { ret := MT4_SUCCESS
  , state := { initFlag := false, managerLive := false, mockConnected := false
             , lastError := "" }
  , buffer := none
  , calls := if s.managerLive then [RCall.releaseC] else [] }

/-- Models `MT4_Connect` (lines 126-171): gate, NULL-server check, the
working-directory hint (when the current directory is available), the
remote connect on a 255-character truncated copy, and the error-code
translation. -/
def MT4_Connect (s : MT4State) (r : Remote) (server : Option String) : OpResult :=
  if notInitGate s then fail s MT4_ERROR_NOT_INITIALIZED "Not initialized" []
  else
    match server with
    | none => fail s MT4_ERROR_INVALID_PARAMETER "Invalid server parameter" []
    | some sv =>
      let sc := sv.take 255
      let pre : List RCall :=
        (match r.cwd with
         | some p => [RCall.workingDirectory p]
         | none => []) ++ [RCall.connect sc]
      if r.connectRet = RET_OK then okNoBuf s pre
      else
        fail s MT4_ERROR_CONNECTION_FAILED (descOr r r.connectRet "Connection failed")
          (pre ++ [RCall.errorDescription r.connectRet])

/-- Models `MT4_Login` (lines 173-203). -/
def MT4_Login (s : MT4State) (r : Remote) (login : Int) (password : Option String) :
    OpResult :=
  if notInitGate s then fail s MT4_ERROR_NOT_INITIALIZED "Not initialized" []
  else
    match password with
    | none => fail s MT4_ERROR_INVALID_PARAMETER "Invalid password parameter" []
    | some pwd =>
      if r.loginRet = RET_OK then okNoBuf s [RCall.login login pwd]
      else
        fail s MT4_ERROR_LOGIN_FAILED (descOr r r.loginRet "Login failed")
          ([RCall.login login pwd] ++ [RCall.errorDescription r.loginRet])

/-- Models `MT4_Disconnect` (lines 205-220): gate, remote disconnect,
then `SetError("")` before the result code is chosen — so an error
return also leaves the last-error text empty. -/
def MT4_Disconnect (s : MT4State) (r : Remote) : OpResult :=
  if notInitGate s then fail s MT4_ERROR_NOT_INITIALIZED "Not initialized" []
  else
    { ret := if r.disconnectRet = RET_OK then MT4_SUCCESS else MT4_ERROR_INTERNAL
    , state := setErr s "", buffer := none, calls := [RCall.disconnectC] }

/-- Models `MT4_IsConnected` (lines 222-224): the defensive query; it
never touches the last-error text. -/
def MT4_IsConnected (s : MT4State) (r : Remote) : OpResult :=
  { ret := if safeIsConnected s r then 1 else 0
  , state := s, buffer := none
  , calls := if notInitGate s then [] else [RCall.isConnectedQ] }

/-- Models `MT4_Ping` (lines 230-249): gate, defensive connection check,
then the remote ping; on the dispatched paths the last-error text is NOT
rewritten (no `SetError` call at lines 241-243). -/
def MT4_Ping (s : MT4State) (r : Remote) : OpResult :=
  if notInitGate s then fail s MT4_ERROR_NOT_INITIALIZED "Not initialized" []
  else if !r.isConnectedR then
    fail s MT4_ERROR_NOT_CONNECTED "Not connected" [RCall.isConnectedQ]
  else
    { ret := if r.pingRet = RET_OK then MT4_SUCCESS else MT4_ERROR_INTERNAL
    , state := s, buffer := none, calls := [RCall.isConnectedQ, RCall.pingC] }

/-- Models `MT4_GetUserInfo` (lines 251-302): gate, buffer validation,
the record request, and either the bounded single-record serialization
(with `MemFree` on both the too-small and the success path) or the
not-found failure.  A non-NULL result with zero records takes the
not-found path without a `MemFree`. -/
def MT4_GetUserInfo (s : MT4State) (r : Remote) (login : Int)
    (bufNull : Bool) (cap : Int) : OpResult :=
  if notInitGate s then fail s MT4_ERROR_NOT_INITIALIZED "Not initialized" []
  else if bufNull = true ∨ cap ≤ 0 then
    fail s MT4_ERROR_INVALID_PARAMETER "Invalid buffer parameter" []
  else
    match r.userRecordsReq with
    | some (u :: _) =>
      boundedEmit s cap (userJson u) [RCall.userRecordsRequest [login]]
        true true "Buffer too small"
    | _ => fail s MT4_ERROR_INTERNAL "User not found" [RCall.userRecordsRequest [login]]

/-- Models `MT4_GetAllUsers` (lines 304-359): gate, buffer validation,
the bounded array serialization with `MemFree` on both exit paths when
records exist, and the unchecked `strcpy_s(buffer, bufferSize, "[]")`
empty-result exit (no `MemFree` there even when the block was non-NULL
with zero records). -/
def MT4_GetAllUsers (s : MT4State) (r : Remote) (bufNull : Bool) (cap : Int) :
    OpResult :=
  if notInitGate s then fail s MT4_ERROR_NOT_INITIALIZED "Not initialized" []
  else if bufNull = true ∨ cap ≤ 0 then
    fail s MT4_ERROR_INVALID_PARAMETER "Invalid buffer parameter" []
  else
    match r.usersReq with
    | some (u :: us) =>
      boundedEmit s cap (usersArrJson (u :: us)) [RCall.usersRequest]
        true true "Buffer too small"
    | _ => emitArr s cap [RCall.usersRequest]

/-- Models `MT4_GetTrades` (lines 361-426): per-user history when the
login is positive, otherwise all trades; then the same bounded array
serialization / unchecked empty-array exit as `MT4_GetAllUsers`. -/
def MT4_GetTrades (s : MT4State) (r : Remote) (login : Int)
    (bufNull : Bool) (cap : Int) : OpResult :=
  if notInitGate s then fail s MT4_ERROR_NOT_INITIALIZED "Not initialized" []
  else if bufNull = true ∨ cap ≤ 0 then
    fail s MT4_ERROR_INVALID_PARAMETER "Invalid buffer parameter" []
  else
    let pre : List RCall :=
      if 0 < login then [RCall.tradesUserHistory login 0 r.now]
      else [RCall.tradesRequest]
    let recs := if 0 < login then r.tradesUserHist else r.tradesReq
    match recs with
    | some (t :: ts) =>
      boundedEmit s cap (tradesArrJson (t :: ts)) pre true true "Buffer too small"
    | _ => emitArr s cap pre

/-- The transaction record `MT4_OpenTrade` builds (lines 447-458): the
`login` argument is NOT recorded anywhere in it (source comment at line
452: "login is not a member of TradeTransInfo in this API version"). -/
def openTradeTrans (symbol : String) (cmd : Int) (volume price stoploss takeprofit : ℚ)
    (comment : Option String) : TradeTransInfo :=
  { ttype := cmd, cmd := cmd, order := 0, orderby := 0
  , volume := lotsToVolume volume
  , price := price, sl := stoploss, tp := takeprofit
  , symbol := symbol
  , comment := match comment with
               | some c => c.take 31
               | none => "" }

/-- Models `MT4_OpenTrade` (lines 428-490): gate, parameter validation,
defensive connection check, the transaction, and the bounded
single-field order serialization (no remote-owned block, so no
`MemFree` anywhere). -/
def MT4_OpenTrade (s : MT4State) (r : Remote) (login : Int) (symbol : Option String)
    (cmd : Int) (volume price stoploss takeprofit : ℚ) (comment : Option String)
    (bufNull : Bool) (cap : Int) : OpResult :=
  if notInitGate s then fail s MT4_ERROR_NOT_INITIALIZED "Not initialized" []
  else if symbol = none ∨ bufNull = true ∨ cap ≤ 0 then
    fail s MT4_ERROR_INVALID_PARAMETER "Invalid parameters" []
  else if !r.isConnectedR then
    fail s MT4_ERROR_NOT_CONNECTED "Not connected" [RCall.isConnectedQ]
  else
    match symbol with
    | none => fail s MT4_ERROR_INVALID_PARAMETER "Invalid parameters" [RCall.isConnectedQ]
    | some sym =>
      let trade := openTradeTrans sym cmd volume price stoploss takeprofit comment
      let pre := [RCall.isConnectedQ, RCall.tradeTransaction trade]
      let code := r.tradeTransRet trade
      if code = RET_OK then
        boundedEmit s cap (orderJson r.tradeTransOrderOut) pre false false
          "Buffer too small"
      else
        fail s MT4_ERROR_INTERNAL (descOr r code "Trade transaction failed")
          (pre ++ [RCall.errorDescription code])

/-- Models `MT4_CloseTrade` (lines 492-540): gate, defensive connection
check, the order lookup (failing with "Trade not found" and no
transaction call when the lookup fails), then the close-by transaction
with caller values when positive and order fallbacks otherwise; the
command is hard-coded `OP_BUY`. -/
def MT4_CloseTrade (s : MT4State) (r : Remote) (order : Int) (lots price : ℚ) :
    OpResult :=
  if notInitGate s then fail s MT4_ERROR_NOT_INITIALIZED "Not initialized" []
  else if !r.isConnectedR then
    fail s MT4_ERROR_NOT_CONNECTED "Not connected" [RCall.isConnectedQ]
  else
    match r.tradeRecGet order with
    | none =>
      fail s MT4_ERROR_INTERNAL "Trade not found"
        [RCall.isConnectedQ, RCall.tradeRecordGet order]
    | some t =>
      let ct : TradeTransInfo :=
        { ttype := TT_ORDER_CLOSE_BY, cmd := OP_BUY, order := order, orderby := order
        , volume := if 0 < lots then lotsToVolume lots else t.volume
        , price := if 0 < price then price else t.close_price
        , sl := 0, tp := 0, symbol := t.symbol, comment := "" }
      let pre := [RCall.isConnectedQ, RCall.tradeRecordGet order,
                  RCall.tradeTransaction ct]
      let code := r.tradeTransRet ct
      if code = RET_OK then okNoBuf s pre
      else
        fail s MT4_ERROR_INTERNAL (descOr r code "Close trade failed")
          (pre ++ [RCall.errorDescription code])

/-- Field extraction of `MT4_CreateUser` (lines 561-605): first-match
substring extraction per field, missing fields keep the zero-filled
defaults, then the fixed overrides (enabled, password change allowed,
leverage 100). -/
def parseUserJson (j : String) : UserRecord :=
  let u0 := defUser
  let u1 :=
    match findSub j "\"login\":" with
    | some p => { u0 with login := atoiM (strDrop j (p + 8)) }
    | none => u0
  let u2 :=
    match findSub j "\"password\":\"" with
    | some p =>
      match findFrom j "\"" (p + 12) with
      | some e => { u1 with password := substrM j (p + 12) (e - (p + 12)) }
      | none => u1
    | none => u1
  let u3 :=
    match findSub j "\"group\":\"" with
    | some p =>
      match findFrom j "\"" (p + 9) with
      | some e => { u2 with group := substrM j (p + 9) (e - (p + 9)) }
      | none => u2
    | none => u2
  let u4 :=
    match findSub j "\"name\":\"" with
    | some p =>
      match findFrom j "\"" (p + 8) with
      | some e => { u3 with name := substrM j (p + 8) (e - (p + 8)) }
      | none => u3
    | none => u3
  { u4 with enable := 1, enable_change_password := 1, leverage := 100 }

/-- Models `MT4_CreateUser` (lines 542-638): gate, parameter validation,
defensive connection check, field extraction, the remote record
creation, and the bounded response serialization. -/
def MT4_CreateUser (s : MT4State) (r : Remote) (jsonData : Option String)
    (bufNull : Bool) (cap : Int) : OpResult :=
  if notInitGate s then fail s MT4_ERROR_NOT_INITIALIZED "Not initialized" []
  else if jsonData = none ∨ bufNull = true ∨ cap ≤ 0 then
    fail s MT4_ERROR_INVALID_PARAMETER "Invalid parameters" []
  else if !r.isConnectedR then
    fail s MT4_ERROR_NOT_CONNECTED "Not connected" [RCall.isConnectedQ]
  else
    match jsonData with
    | none => fail s MT4_ERROR_INVALID_PARAMETER "Invalid parameters" [RCall.isConnectedQ]
    | some j =>
      let user := parseUserJson j
      let pre := [RCall.isConnectedQ, RCall.userRecordNew user]
      let code := r.userRecNew user
      if code = RET_OK then
        boundedEmit s cap (createUserResp user.login) pre false false "Buffer too small"
      else
        fail s MT4_ERROR_INTERNAL (descOr r code "Failed to create user")
          (pre ++ [RCall.errorDescription code])

/-- Field updates of `MT4_UpdateUser` (lines 666-696): name, email and
group, each first-match, each left untouched when absent. -/
def applyUserUpdates (u : UserRecord) (j : String) : UserRecord :=
  let u1 :=
    match findSub j "\"name\":\"" with
    | some p =>
      match findFrom j "\"" (p + 8) with
      | some e => { u with name := substrM j (p + 8) (e - (p + 8)) }
      | none => u
    | none => u
  let u2 :=
    match findSub j "\"email\":\"" with
    | some p =>
      match findFrom j "\"" (p + 9) with
      | some e => { u1 with email := substrM j (p + 9) (e - (p + 9)) }
      | none => u1
    | none => u1
  match findSub j "\"group\":\"" with
  | some p =>
    match findFrom j "\"" (p + 9) with
    | some e => { u2 with group := substrM j (p + 9) (e - (p + 9)) }
    | none => u2
  | none => u2

/-- Models `MT4_UpdateUser` (lines 640-718): gate, parameter validation,
defensive connection check, fetch of the existing record, field updates,
remote update. -/
def MT4_UpdateUser (s : MT4State) (r : Remote) (login : Int)
    (jsonData : Option String) : OpResult :=
  if notInitGate s then fail s MT4_ERROR_NOT_INITIALIZED "Not initialized" []
  else if jsonData = none then
    fail s MT4_ERROR_INVALID_PARAMETER "Invalid parameters" []
  else if !r.isConnectedR then
    fail s MT4_ERROR_NOT_CONNECTED "Not connected" [RCall.isConnectedQ]
  else
    match jsonData with
    | none => fail s MT4_ERROR_INVALID_PARAMETER "Invalid parameters" [RCall.isConnectedQ]
    | some j =>
      match r.userRecGet login with
      | none =>
        fail s MT4_ERROR_INTERNAL "User not found"
          [RCall.isConnectedQ, RCall.userRecordGet login]
      | some u =>
        let u2 := applyUserUpdates u j
        let pre := [RCall.isConnectedQ, RCall.userRecordGet login,
                    RCall.userRecordUpdate u2]
        let code := r.userRecUpdate u2
        if code = RET_OK then okNoBuf s pre
        else
          fail s MT4_ERROR_INTERNAL (descOr r code "Failed to update user")
            (pre ++ [RCall.errorDescription code])

/-- Models `MT4_DeleteUser` (lines 720-762): soft delete — fetch, clear
the enable flag, update. -/
def MT4_DeleteUser (s : MT4State) (r : Remote) (login : Int) : OpResult :=
  if notInitGate s then fail s MT4_ERROR_NOT_INITIALIZED "Not initialized" []
  else if !r.isConnectedR then
    fail s MT4_ERROR_NOT_CONNECTED "Not connected" [RCall.isConnectedQ]
  else
    match r.userRecGet login with
    | none =>
      fail s MT4_ERROR_INTERNAL "User not found"
        [RCall.isConnectedQ, RCall.userRecordGet login]
    | some u =>
      let u2 := { u with enable := 0 }
      let pre := [RCall.isConnectedQ, RCall.userRecordGet login,
                  RCall.userRecordUpdate u2]
      let code := r.userRecUpdate u2
      if code = RET_OK then okNoBuf s pre
      else
        fail s MT4_ERROR_INTERNAL (descOr r code "Failed to disable user")
          (pre ++ [RCall.errorDescription code])

/-- Models `MT4_GetSymbols` (lines 764-827): gate, buffer validation,
symbol refresh plus fetch, then the bounded array serialization capped
at 50, or the unchecked empty-array exit. -/
def MT4_GetSymbols (s : MT4State) (r : Remote) (bufNull : Bool) (cap : Int) :
    OpResult :=
  if notInitGate s then fail s MT4_ERROR_NOT_INITIALIZED "Not initialized" []
  else if bufNull = true ∨ cap ≤ 0 then
    fail s MT4_ERROR_INVALID_PARAMETER "Invalid buffer parameter" []
  else
    let pre := [RCall.symbolsRefresh, RCall.symbolsGetAll]
    match r.symbolsAll with
    | some (c :: cs) =>
      boundedEmit s cap (symsArrJson (c :: cs)) pre true true "Buffer too small"
    | _ => emitArr s cap pre

/-- Last element with an explicit head (the C `ticks[total - 1]`). -/
def lastD : TickInfo → List TickInfo → TickInfo
  | t, [] => t
  | _, t :: ts => lastD t ts

/-- Tick-path and fallback-path tail of `MT4_GetQuote` (lines 883-950):
the last-tick serialization frees the tick block ONLY on the success
path (the too-small exit at lines 937-940 returns before the `MemFree`
at line 946); a NULL or empty tick result falls back to `SymbolInfoGet`
without ever freeing the block. -/
def getQuoteTicks (s : MT4State) (r : Remote) (sym : String) (cap : Int)
    (pre : List RCall) : OpResult :=
  let pre2 := pre ++ [RCall.tickInfoLast sym]
  match r.tickLast sym with
  | some (t0 :: ts) =>
    let tick := lastD t0 ts
    let si := (r.symbolInfoGetR sym).getD defSymbolInfo
    let txt := quoteJson sym tick.bid tick.ask
      ((tick.ask - tick.bid) * (10 : Int) ^ si.digits) si.digits tick.ctm
    boundedEmit s cap txt (pre2 ++ [RCall.symbolInfoGet sym]) false true
      "Buffer too small for quote data"
  | _ =>
    match r.symbolInfoGetR sym with
    | none =>
      fail s MT4_ERROR_INTERNAL "No price data available for symbol"
        (pre2 ++ [RCall.symbolInfoGet sym])
    | some si =>
      boundedEmit s cap (quoteJson sym si.bid si.ask si.spread si.digits r.now)
        (pre2 ++ [RCall.symbolInfoGet sym]) false false
        "Buffer too small for quote data"

/-- Models `MT4_GetQuote` (lines 829-960).  Unlike every other record
operation, the defensive connection check (a remote `IsConnected` call)
comes BEFORE parameter validation (lines 835-843).  The updated-symbol
path serializes directly with no remote-owned block; otherwise the tick
path of `getQuoteTicks` runs. -/
def MT4_GetQuote (s : MT4State) (r : Remote) (symbol : Option String)
    (bufNull : Bool) (cap : Int) : OpResult :=
  if notInitGate s then fail s MT4_ERROR_NOT_INITIALIZED "Not initialized" []
  else if !r.isConnectedR then
    fail s MT4_ERROR_NOT_CONNECTED "Not connected to MT4 server" [RCall.isConnectedQ]
  else if symbol = none ∨ bufNull = true ∨ cap ≤ 0 then
    fail s MT4_ERROR_INVALID_PARAMETER "Invalid parameters" [RCall.isConnectedQ]
  else
    match symbol with
    | none => fail s MT4_ERROR_INVALID_PARAMETER "Invalid parameters" [RCall.isConnectedQ]
    | some sym =>
      let pre1 := [RCall.isConnectedQ, RCall.symbolInfoUpdated]
      match (r.symbolInfoUpd.take 128).find? (fun si => si.symbol == sym) with
      | some t =>
        if 0 < t.bid ∨ 0 < t.ask then
          boundedEmit s cap (quoteJson sym t.bid t.ask t.spread t.digits t.lasttime)
            pre1 false false "Buffer too small for quote data"
        else getQuoteTicks s r sym cap pre1
      | none => getQuoteTicks s r sym cap pre1

/-! ## Call sequences -/

/-- A call into the façade, with its C arguments. -/
inductive Call where
  | initOp : Call
  | shutdownOp : Call
  | connectOp : Option String → Call
  | loginOp : Int → Option String → Call
  | disconnectOp : Call
  | isConnectedOp : Call
  | pingOp : Call
  | getUserInfoOp : Int → Bool → Int → Call
  | getAllUsersOp : Bool → Int → Call
  | getTradesOp : Int → Bool → Int → Call
  | openTradeOp : Int → Option String → Int → ℚ → ℚ → ℚ → ℚ → Option String →
      Bool → Int → Call
  | closeTradeOp : Int → ℚ → ℚ → Call
  | createUserOp : Option String → Bool → Int → Call
  | updateUserOp : Int → Option String → Call
  | deleteUserOp : Int → Call
  | getSymbolsOp : Bool → Int → Call
  | getQuoteOp : Option String → Bool → Int → Call
deriving DecidableEq

/-- Dispatch one call against the current session state and oracle. -/
def step (s : MT4State) (r : Remote) : Call → OpResult
  | .initOp => MT4_Init s r
  | .shutdownOp => MT4_Shutdown s
  | .connectOp sv => MT4_Connect s r sv
  | .loginOp l p => MT4_Login s r l p
  | .disconnectOp => MT4_Disconnect s r
  | .isConnectedOp => MT4_IsConnected s r
  | .pingOp => MT4_Ping s r
  | .getUserInfoOp l b c => MT4_GetUserInfo s r l b c
  | .getAllUsersOp b c => MT4_GetAllUsers s r b c
  | .getTradesOp l b c => MT4_GetTrades s r l b c
  | .openTradeOp l sym cmd v p sl tp cm b c =>
      MT4_OpenTrade s r l sym cmd v p sl tp cm b c
  | .closeTradeOp o l p => MT4_CloseTrade s r o l p
  | .createUserOp j b c => MT4_CreateUser s r j b c
  | .updateUserOp l j => MT4_UpdateUser s r l j
  | .deleteUserOp l => MT4_DeleteUser s r l
  | .getSymbolsOp b c => MT4_GetSymbols s r b c
  | .getQuoteOp sym b c => MT4_GetQuote s r sym b c

/-- Run a call sequence (each call with its own oracle) from a state. -/
def runFrom (s : MT4State) : List (Call × Remote) → MT4State
  | [] => s
  | (c, r) :: rest => runFrom (step s r c).state rest

/-- Alongside the run, track whether a successful initialize has happened
since the last shutdown (or since the start, when no shutdown occurred):
a shutdown resets the flag, an initialize whose observed status code is
`MT4_SUCCESS` sets it, every other call leaves it. -/
def runFlag (s : MT4State) (b : Bool) : List (Call × Remote) → Bool
  | [] => b
  | (c, r) :: rest =>
    let b2 : Bool :=
      match c with
      | .shutdownOp => false
      | .initOp => if (step s r c).ret = MT4_SUCCESS then true else b
      | _ => b
    runFlag (step s r c).state b2 rest

/-! ## Concrete states, oracles and inputs used in closed statements -/

/-- A live session (after a successful initialize). -/
def sLive : MT4State :=
  { initFlag := true, managerLive := true, mockConnected := false, lastError := "" }

/-- A live session carrying stale last-error text. -/
def sStale : MT4State :=
  { initFlag := true, managerLive := true, mockConnected := false, lastError := "stale" }

/-- Base oracle: disconnected, every status `RET_OK`, every pointer
result NULL, no error descriptions. -/
def rBase : Remote :=
  { isConnectedR := false, connectRet := 0, loginRet := 0, disconnectRet := 0
  , pingRet := 0, errorDesc := fun _ => none, cwd := none, now := 0
  , userRecordsReq := none, usersReq := none, tradesUserHist := none
  , tradesReq := none, tradeRecGet := fun _ => none, tradeTransRet := fun _ => 0
  , tradeTransOrderOut := 0, userRecNew := fun _ => 0, userRecGet := fun _ => none
  , userRecUpdate := fun _ => 0, symbolsAll := none, symbolInfoUpd := []
  , tickLast := fun _ => none, symbolInfoGetR := fun _ => none
  , wsaOk := true, factoryValid := true, createOk := true }

/-- A connected oracle. -/
def rConn : Remote := { rBase with isConnectedR := true }

/-- Sample user record for counterexample evaluation. -/
def u0 : UserRecord :=
  { login := 7, name := "A", email := "B", password := "", group := "G"
  , balance := 1, credit := 2, leverage := 3, enable := 1
  , enable_change_password := 1 }

/-- Oracle returning exactly one user record. -/
def rOneUser : Remote := { rBase with userRecordsReq := some [u0] }

/-- Oracle for the quote-leak evaluation: no updated symbols, one tick. -/
def rQuoteLeak : Remote :=
  { rConn with
    tickLast := fun _ => some [{ bid := 1, ask := 2, ctm := 5 }]
  , symbolInfoGetR := fun _ => some defSymbolInfo }

/-- Oracle whose remote connect fails with status 3 and no description. -/
def rConnFail : Remote := { rBase with connectRet := 3 }

/-- Create-account input of the specification example: carries login,
password and group, no name field. -/
def C9input : String :=
  "\x7b\"login\":4242,\"password\":\"x\",\"group\":\"g\"\x7d"

/-- Expected create-account response for login 4242. -/
def C9out : String :=
  "\x7b\"success\":true,\"login\":4242\x7d"

/-- Non-emptiness of the remote-supplied error descriptions: the remote
may return NULL, but a present description is not the empty string. -/
def descsNonEmpty (r : Remote) : Prop :=
  ∀ k d, r.errorDesc k = some d → d ≠ ""

/-- Operations exempt from the last-error rewrite discipline:
`MT4_IsConnected` never touches the text, `MT4_Ping` leaves it unchanged
once dispatched, and `MT4_Disconnect` clears it even on failure. -/
def exemptC4 : Call → Bool
  | .isConnectedOp => true
  | .pingOp => true
  | .disconnectOp => true
  | _ => false

/-! ## Helper lemmas -/

theorem notInitGate_false {s : MT4State} (h1 : s.initFlag = true)
    (h2 : s.managerLive = true) : notInitGate s = false := by
  simp [notInitGate, h1, h2]

theorem notInitGate_true {s : MT4State} (h1 : s.initFlag = false) :
    notInitGate s = true := by
  simp [notInitGate, h1]

theorem descOr_ne {r : Remote} (hd : descsNonEmpty r) {k : Int} {d : String}
    (h : d ≠ "") : descOr r k d ≠ "" := by
  unfold descOr
  cases he : r.errorDesc k with
  | none => simpa using h
  | some e => simpa using hd k e he

/-! ## IEEE-754 evaluation lemmas for the lot conversion -/

theorem binExpAux_step (n m : Nat) (q : ℚ) (h : n = m + 1) :
    binExpAux n q =
      if q < 1 then binExpAux m (2 * q) - 1
      else if 2 ≤ q then binExpAux m (q / 2) + 1
      else 0 := by
  subst h; rfl

theorem fl_three_halves : fl (3 / 2 : ℚ) = 3 / 2 := by
  rw [fl]
  norm_num [abs_of_pos]
  rw [binExpAux_step _ 2199 _ rfl]
  norm_num [rne]

theorem fl_onefifty : fl (150 : ℚ) = 150 := by
  rw [fl]
  norm_num [abs_of_pos]
  rw [binExpAux_step _ 2199 _ rfl]; norm_num
  rw [binExpAux_step _ 2198 _ rfl]; norm_num
  rw [binExpAux_step _ 2197 _ rfl]; norm_num
  rw [binExpAux_step _ 2196 _ rfl]; norm_num
  rw [binExpAux_step _ 2195 _ rfl]; norm_num
  rw [binExpAux_step _ 2194 _ rfl]; norm_num
  rw [binExpAux_step _ 2193 _ rfl]; norm_num
  rw [binExpAux_step _ 2192 _ rfl]; norm_num [rne]

theorem fl_centi : fl (1 / 100 : ℚ) = 5764607523034235 / 576460752303423488 := by
  rw [fl]
  norm_num [abs_of_pos]
  rw [binExpAux_step _ 2199 _ rfl]; norm_num
  rw [binExpAux_step _ 2198 _ rfl]; norm_num
  rw [binExpAux_step _ 2197 _ rfl]; norm_num
  rw [binExpAux_step _ 2196 _ rfl]; norm_num
  rw [binExpAux_step _ 2195 _ rfl]; norm_num
  rw [binExpAux_step _ 2194 _ rfl]; norm_num
  rw [binExpAux_step _ 2193 _ rfl]; norm_num
  rw [binExpAux_step _ 2192 _ rfl]; norm_num [rne]

theorem fl_centi100 :
    fl ((5764607523034235 / 576460752303423488 : ℚ) * 100) = 1 := by
  rw [fl]
  norm_num [abs_of_pos]
  rw [binExpAux_step _ 2199 _ rfl]
  norm_num [rne]

theorem lotsToVolume_three_halves : lotsToVolume (fl (3 / 2 : ℚ)) = 150 := by
  rw [fl_three_halves]
  unfold lotsToVolume
  rw [show (3 / 2 : ℚ) * 100 = 150 by norm_num, fl_onefifty]
  rw [show truncQ (150 : ℚ) = 150 by norm_num [truncQ]]
  norm_num [wrap32]

theorem lotsToVolume_centi : lotsToVolume (fl (1 / 100 : ℚ)) = 1 := by
  rw [fl_centi]
  unfold lotsToVolume
  rw [fl_centi100]
  rw [show truncQ (1 : ℚ) = 1 by norm_num [truncQ]]
  norm_num [wrap32]

/-! ## Gate lemmas: an uninitialized session short-circuits every gated
operation with NotInitialized and an empty remote trace -/

theorem gate_connect {s : MT4State} (r : Remote) (sv : Option String)
    (h : notInitGate s = true) :
    MT4_Connect s r sv = fail s MT4_ERROR_NOT_INITIALIZED "Not initialized" [] := by
  simp [MT4_Connect, h]

theorem gate_login {s : MT4State} (r : Remote) (l : Int) (p : Option String)
    (h : notInitGate s = true) :
    MT4_Login s r l p = fail s MT4_ERROR_NOT_INITIALIZED "Not initialized" [] := by
  simp [MT4_Login, h]

theorem gate_ping {s : MT4State} (r : Remote) (h : notInitGate s = true) :
    MT4_Ping s r = fail s MT4_ERROR_NOT_INITIALIZED "Not initialized" [] := by
  simp [MT4_Ping, h]

theorem gate_getUserInfo {s : MT4State} (r : Remote) (l : Int) (b : Bool) (c : Int)
    (h : notInitGate s = true) :
    MT4_GetUserInfo s r l b c =
      fail s MT4_ERROR_NOT_INITIALIZED "Not initialized" [] := by
  simp [MT4_GetUserInfo, h]

theorem gate_getAllUsers {s : MT4State} (r : Remote) (b : Bool) (c : Int)
    (h : notInitGate s = true) :
    MT4_GetAllUsers s r b c =
      fail s MT4_ERROR_NOT_INITIALIZED "Not initialized" [] := by
  simp [MT4_GetAllUsers, h]

theorem gate_getTrades {s : MT4State} (r : Remote) (l : Int) (b : Bool) (c : Int)
    (h : notInitGate s = true) :
    MT4_GetTrades s r l b c =
      fail s MT4_ERROR_NOT_INITIALIZED "Not initialized" [] := by
  simp [MT4_GetTrades, h]

theorem gate_openTrade {s : MT4State} (r : Remote) (l : Int) (sym : Option String)
    (cmd : Int) (v p sl tp : ℚ) (cm : Option String) (b : Bool) (c : Int)
    (h : notInitGate s = true) :
    MT4_OpenTrade s r l sym cmd v p sl tp cm b c =
      fail s MT4_ERROR_NOT_INITIALIZED "Not initialized" [] := by
  simp [MT4_OpenTrade, h]

theorem gate_closeTrade {s : MT4State} (r : Remote) (o : Int) (l p : ℚ)
    (h : notInitGate s = true) :
    MT4_CloseTrade s r o l p =
      fail s MT4_ERROR_NOT_INITIALIZED "Not initialized" [] := by
  simp [MT4_CloseTrade, h]

theorem gate_createUser {s : MT4State} (r : Remote) (j : Option String) (b : Bool)
    (c : Int) (h : notInitGate s = true) :
    MT4_CreateUser s r j b c =
      fail s MT4_ERROR_NOT_INITIALIZED "Not initialized" [] := by
  simp [MT4_CreateUser, h]

theorem gate_updateUser {s : MT4State} (r : Remote) (l : Int) (j : Option String)
    (h : notInitGate s = true) :
    MT4_UpdateUser s r l j =
      fail s MT4_ERROR_NOT_INITIALIZED "Not initialized" [] := by
  simp [MT4_UpdateUser, h]

theorem gate_deleteUser {s : MT4State} (r : Remote) (l : Int)
    (h : notInitGate s = true) :
    MT4_DeleteUser s r l =
      fail s MT4_ERROR_NOT_INITIALIZED "Not initialized" [] := by
  simp [MT4_DeleteUser, h]

theorem gate_getSymbols {s : MT4State} (r : Remote) (b : Bool) (c : Int)
    (h : notInitGate s = true) :
    MT4_GetSymbols s r b c =
      fail s MT4_ERROR_NOT_INITIALIZED "Not initialized" [] := by
  simp [MT4_GetSymbols, h]

theorem gate_getQuote {s : MT4State} (r : Remote) (sym : Option String) (b : Bool)
    (c : Int) (h : notInitGate s = true) :
    MT4_GetQuote s r sym b c =
      fail s MT4_ERROR_NOT_INITIALIZED "Not initialized" [] := by
  simp [MT4_GetQuote, h]

/-! ## Preservation lemmas: only initialize and shutdown touch the
session flags -/

theorem pres_connect (s : MT4State) (r : Remote) (sv : Option String) :
    (MT4_Connect s r sv).state.initFlag = s.initFlag ∧
    (MT4_Connect s r sv).state.managerLive = s.managerLive := by
  simp only [MT4_Connect]
  repeat' split
  all_goals exact ⟨rfl, rfl⟩

theorem pres_login (s : MT4State) (r : Remote) (l : Int) (p : Option String) :
    (MT4_Login s r l p).state.initFlag = s.initFlag ∧
    (MT4_Login s r l p).state.managerLive = s.managerLive := by
  simp only [MT4_Login]
  repeat' split
  all_goals exact ⟨rfl, rfl⟩

theorem pres_disconnect (s : MT4State) (r : Remote) :
    (MT4_Disconnect s r).state.initFlag = s.initFlag ∧
    (MT4_Disconnect s r).state.managerLive = s.managerLive := by
  simp only [MT4_Disconnect]
  repeat' split
  all_goals exact ⟨rfl, rfl⟩

theorem pres_isConnected (s : MT4State) (r : Remote) :
    (MT4_IsConnected s r).state.initFlag = s.initFlag ∧
    (MT4_IsConnected s r).state.managerLive = s.managerLive := by
  exact ⟨rfl, rfl⟩

theorem pres_ping (s : MT4State) (r : Remote) :
    (MT4_Ping s r).state.initFlag = s.initFlag ∧
    (MT4_Ping s r).state.managerLive = s.managerLive := by
  simp only [MT4_Ping]
  repeat' split
  all_goals exact ⟨rfl, rfl⟩

theorem pres_getUserInfo (s : MT4State) (r : Remote) (l : Int) (b : Bool) (c : Int) :
    (MT4_GetUserInfo s r l b c).state.initFlag = s.initFlag ∧
    (MT4_GetUserInfo s r l b c).state.managerLive = s.managerLive := by
  simp only [MT4_GetUserInfo, boundedEmit]
  repeat' split
  all_goals exact ⟨rfl, rfl⟩

theorem pres_getAllUsers (s : MT4State) (r : Remote) (b : Bool) (c : Int) :
    (MT4_GetAllUsers s r b c).state.initFlag = s.initFlag ∧
    (MT4_GetAllUsers s r b c).state.managerLive = s.managerLive := by
  simp only [MT4_GetAllUsers, boundedEmit]
  repeat' split
  all_goals exact ⟨rfl, rfl⟩

theorem pres_getTrades (s : MT4State) (r : Remote) (l : Int) (b : Bool) (c : Int) :
    (MT4_GetTrades s r l b c).state.initFlag = s.initFlag ∧
    (MT4_GetTrades s r l b c).state.managerLive = s.managerLive := by
  simp only [MT4_GetTrades, boundedEmit]
  repeat' split
  all_goals exact ⟨rfl, rfl⟩

theorem pres_openTrade (s : MT4State) (r : Remote) (l : Int) (sym : Option String)
    (cmd : Int) (v p sl tp : ℚ) (cm : Option String) (b : Bool) (c : Int) :
    (MT4_OpenTrade s r l sym cmd v p sl tp cm b c).state.initFlag = s.initFlag ∧
    (MT4_OpenTrade s r l sym cmd v p sl tp cm b c).state.managerLive =
      s.managerLive := by
  simp only [MT4_OpenTrade, boundedEmit]
  repeat' split
  all_goals exact ⟨rfl, rfl⟩

theorem pres_closeTrade (s : MT4State) (r : Remote) (o : Int) (l p : ℚ) :
    (MT4_CloseTrade s r o l p).state.initFlag = s.initFlag ∧
    (MT4_CloseTrade s r o l p).state.managerLive = s.managerLive := by
  simp only [MT4_CloseTrade]
  repeat' split
  all_goals exact ⟨rfl, rfl⟩

theorem pres_createUser (s : MT4State) (r : Remote) (j : Option String) (b : Bool)
    (c : Int) :
    (MT4_CreateUser s r j b c).state.initFlag = s.initFlag ∧
    (MT4_CreateUser s r j b c).state.managerLive = s.managerLive := by
  simp only [MT4_CreateUser, boundedEmit]
  repeat' split
  all_goals exact ⟨rfl, rfl⟩

theorem pres_updateUser (s : MT4State) (r : Remote) (l : Int) (j : Option String) :
    (MT4_UpdateUser s r l j).state.initFlag = s.initFlag ∧
    (MT4_UpdateUser s r l j).state.managerLive = s.managerLive := by
  simp only [MT4_UpdateUser]
  repeat' split
  all_goals exact ⟨rfl, rfl⟩

theorem pres_deleteUser (s : MT4State) (r : Remote) (l : Int) :
    (MT4_DeleteUser s r l).state.initFlag = s.initFlag ∧
    (MT4_DeleteUser s r l).state.managerLive = s.managerLive := by
  simp only [MT4_DeleteUser]
  repeat' split
  all_goals exact ⟨rfl, rfl⟩

theorem pres_getSymbols (s : MT4State) (r : Remote) (b : Bool) (c : Int) :
    (MT4_GetSymbols s r b c).state.initFlag = s.initFlag ∧
    (MT4_GetSymbols s r b c).state.managerLive = s.managerLive := by
  simp only [MT4_GetSymbols, boundedEmit]
  repeat' split
  all_goals exact ⟨rfl, rfl⟩

theorem pres_getQuote (s : MT4State) (r : Remote) (sym : Option String) (b : Bool)
    (c : Int) :
    (MT4_GetQuote s r sym b c).state.initFlag = s.initFlag ∧
    (MT4_GetQuote s r sym b c).state.managerLive = s.managerLive := by
  simp only [MT4_GetQuote, getQuoteTicks, boundedEmit]
  repeat' split
  all_goals exact ⟨rfl, rfl⟩

/-- Initialize leaves the initialized flag unchanged on every failure and
sets it exactly when it reports success. -/
theorem init_flag_char (s : MT4State) (r : Remote) :
    (MT4_Init s r).state.initFlag =
      (if (MT4_Init s r).ret = MT4_SUCCESS then true else s.initFlag) := by
  simp only [MT4_Init]
  repeat' split
  all_goals
    simp_all [fail, setErr, MT4_SUCCESS, MT4_ERROR_ALREADY_INITIALIZED,
      MT4_ERROR_INTERNAL]

/-- The tracked flag agrees with the session's initialized flag along any
run: a successful initialize is the only way to set it, a shutdown the
only way (besides starting uninitialized) to clear it. -/
theorem runFlag_eq (cs : List (Call × Remote)) :
    ∀ s : MT4State, runFlag s s.initFlag cs = (runFrom s cs).initFlag := by
  induction cs with
  | nil => intro s; rfl
  | cons p rest ih =>
    obtain ⟨c, r⟩ := p
    intro s
    cases c with
    | initOp =>
      simp only [runFlag, runFrom, step]
      rw [← init_flag_char s r]
      exact ih _
    | shutdownOp =>
      simp only [runFlag, runFrom, step]
      exact ih _
    | connectOp sv =>
      simp only [runFlag, runFrom, step]
      rw [show s.initFlag = (MT4_Connect s r sv).state.initFlag from
        (pres_connect s r sv).1.symm]
      exact ih _
    | loginOp l p =>
      simp only [runFlag, runFrom, step]
      rw [show s.initFlag = (MT4_Login s r l p).state.initFlag from
        (pres_login s r l p).1.symm]
      exact ih _
    | disconnectOp =>
      simp only [runFlag, runFrom, step]
      rw [show s.initFlag = (MT4_Disconnect s r).state.initFlag from
        (pres_disconnect s r).1.symm]
      exact ih _
    | isConnectedOp =>
      simp only [runFlag, runFrom, step]
      exact ih _
    | pingOp =>
      simp only [runFlag, runFrom, step]
      rw [show s.initFlag = (MT4_Ping s r).state.initFlag from
        (pres_ping s r).1.symm]
      exact ih _
    | getUserInfoOp l b c =>
      simp only [runFlag, runFrom, step]
      rw [show s.initFlag = (MT4_GetUserInfo s r l b c).state.initFlag from
        (pres_getUserInfo s r l b c).1.symm]
      exact ih _
    | getAllUsersOp b c =>
      simp only [runFlag, runFrom, step]
      rw [show s.initFlag = (MT4_GetAllUsers s r b c).state.initFlag from
        (pres_getAllUsers s r b c).1.symm]
      exact ih _
    | getTradesOp l b c =>
      simp only [runFlag, runFrom, step]
      rw [show s.initFlag = (MT4_GetTrades s r l b c).state.initFlag from
        (pres_getTrades s r l b c).1.symm]
      exact ih _
    | openTradeOp l sym cmd v p sl tp cm b c =>
      simp only [runFlag, runFrom, step]
      rw [show s.initFlag =
          (MT4_OpenTrade s r l sym cmd v p sl tp cm b c).state.initFlag from
        (pres_openTrade s r l sym cmd v p sl tp cm b c).1.symm]
      exact ih _
    | closeTradeOp o l p =>
      simp only [runFlag, runFrom, step]
      rw [show s.initFlag = (MT4_CloseTrade s r o l p).state.initFlag from
        (pres_closeTrade s r o l p).1.symm]
      exact ih _
    | createUserOp j b c =>
      simp only [runFlag, runFrom, step]
      rw [show s.initFlag = (MT4_CreateUser s r j b c).state.initFlag from
        (pres_createUser s r j b c).1.symm]
      exact ih _
    | updateUserOp l j =>
      simp only [runFlag, runFrom, step]
      rw [show s.initFlag = (MT4_UpdateUser s r l j).state.initFlag from
        (pres_updateUser s r l j).1.symm]
      exact ih _
    | deleteUserOp l =>
      simp only [runFlag, runFrom, step]
      rw [show s.initFlag = (MT4_DeleteUser s r l).state.initFlag from
        (pres_deleteUser s r l).1.symm]
      exact ih _
    | getSymbolsOp b c =>
      simp only [runFlag, runFrom, step]
      rw [show s.initFlag = (MT4_GetSymbols s r b c).state.initFlag from
        (pres_getSymbols s r b c).1.symm]
      exact ih _
    | getQuoteOp sym b c =>
      simp only [runFlag, runFrom, step]
      rw [show s.initFlag = (MT4_GetQuote s r sym b c).state.initFlag from
        (pres_getQuote s r sym b c).1.symm]
      exact ih _

/-- Claim C1: for every call sequence, each of connect, login, ping and
the record operations (get user, list users, list trades, open trade,
close trade, create user, update user, delete user, list symbols, get
quote), when invoked before a successful initialize or after shutdown —
that is, at a point of the run where no initialize call has reported
success since the last shutdown (`runFlag … = false`) — returns
`MT4_ERROR_NOT_INITIALIZED` and performs no remote-capability call (its
result equals the bare NotInitialized failure with an empty call
trace). -/
theorem C1_uninitialized_gating (cs : List (Call × Remote)) (s : MT4State)
    (hrun : runFrom initState cs = s)
    (hflag : runFlag initState false cs = false) :
    (∀ r sv, MT4_Connect s r sv =
      fail s MT4_ERROR_NOT_INITIALIZED "Not initialized" []) ∧
    (∀ r l p, MT4_Login s r l p =
      fail s MT4_ERROR_NOT_INITIALIZED "Not initialized" []) ∧
    (∀ r, MT4_Ping s r =
      fail s MT4_ERROR_NOT_INITIALIZED "Not initialized" []) ∧
    (∀ r l b c, MT4_GetUserInfo s r l b c =
      fail s MT4_ERROR_NOT_INITIALIZED "Not initialized" []) ∧
    (∀ r b c, MT4_GetAllUsers s r b c =
      fail s MT4_ERROR_NOT_INITIALIZED "Not initialized" []) ∧
    (∀ r l b c, MT4_GetTrades s r l b c =
      fail s MT4_ERROR_NOT_INITIALIZED "Not initialized" []) ∧
    (∀ r l sym cmd v p sl tp cm b c, MT4_OpenTrade s r l sym cmd v p sl tp cm b c =
      fail s MT4_ERROR_NOT_INITIALIZED "Not initialized" []) ∧
    (∀ r o l p, MT4_CloseTrade s r o l p =
      fail s MT4_ERROR_NOT_INITIALIZED "Not initialized" []) ∧
    (∀ r j b c, MT4_CreateUser s r j b c =
      fail s MT4_ERROR_NOT_INITIALIZED "Not initialized" []) ∧
    (∀ r l j, MT4_UpdateUser s r l j =
      fail s MT4_ERROR_NOT_INITIALIZED "Not initialized" []) ∧
    (∀ r l, MT4_DeleteUser s r l =
      fail s MT4_ERROR_NOT_INITIALIZED "Not initialized" []) ∧
    (∀ r b c, MT4_GetSymbols s r b c =
      fail s MT4_ERROR_NOT_INITIALIZED "Not initialized" []) ∧
    (∀ r sym b c, MT4_GetQuote s r sym b c =
      fail s MT4_ERROR_NOT_INITIALIZED "Not initialized" []) := by
  have hIF : s.initFlag = false := by
    have h := runFlag_eq cs initState
    rw [show initState.initFlag = false from rfl] at h
    rw [hrun] at h
    rw [← h]
    exact hflag
  have hg : notInitGate s = true := notInitGate_true hIF
  refine ⟨fun r sv => gate_connect r sv hg,
    fun r l p => gate_login r l p hg,
    fun r => gate_ping r hg,
    fun r l b c => gate_getUserInfo r l b c hg,
    fun r b c => gate_getAllUsers r b c hg,
    fun r l b c => gate_getTrades r l b c hg,
    fun r l sym cmd v p sl tp cm b c => gate_openTrade r l sym cmd v p sl tp cm b c hg,
    fun r o l p => gate_closeTrade r o l p hg,
    fun r j b c => gate_createUser r j b c hg,
    fun r l j => gate_updateUser r l j hg,
    fun r l => gate_deleteUser r l hg,
    fun r b c => gate_getSymbols r b c hg,
    fun r sym b c => gate_getQuote r sym b c hg⟩

/-- Witness for C1: after a successful initialize followed by a shutdown,
connect is gated with NotInitialized and an empty remote trace. -/
theorem C1_uninitialized_gating_witness :
    MT4_Connect (runFrom initState [(Call.initOp, rBase), (Call.shutdownOp, rBase)])
        rBase (some "srv") =
      fail (runFrom initState [(Call.initOp, rBase), (Call.shutdownOp, rBase)])
        MT4_ERROR_NOT_INITIALIZED "Not initialized" [] :=
  (C1_uninitialized_gating [(Call.initOp, rBase), (Call.shutdownOp, rBase)]
    (runFrom initState [(Call.initOp, rBase), (Call.shutdownOp, rBase)])
    rfl (by decide)).1 rBase (some "srv")

/-! ## Buffer-write lemmas -/

theorem bufnone_init (s : MT4State) (r : Remote) : (MT4_Init s r).buffer = none := by
  simp only [MT4_Init]
  repeat' split
  all_goals rfl

theorem bufnone_shutdown (s : MT4State) : (MT4_Shutdown s).buffer = none := rfl

theorem bufnone_connect (s : MT4State) (r : Remote) (sv : Option String) :
    (MT4_Connect s r sv).buffer = none := by
  simp only [MT4_Connect]
  repeat' split
  all_goals rfl

theorem bufnone_login (s : MT4State) (r : Remote) (l : Int) (p : Option String) :
    (MT4_Login s r l p).buffer = none := by
  simp only [MT4_Login]
  repeat' split
  all_goals rfl

theorem bufnone_disconnect (s : MT4State) (r : Remote) :
    (MT4_Disconnect s r).buffer = none := by
  simp only [MT4_Disconnect]
  repeat' split
  all_goals rfl

theorem bufnone_isConnected (s : MT4State) (r : Remote) :
    (MT4_IsConnected s r).buffer = none := rfl

theorem bufnone_ping (s : MT4State) (r : Remote) : (MT4_Ping s r).buffer = none := by
  simp only [MT4_Ping]
  repeat' split
  all_goals rfl

theorem bufnone_closeTrade (s : MT4State) (r : Remote) (o : Int) (l p : ℚ) :
    (MT4_CloseTrade s r o l p).buffer = none := by
  simp only [MT4_CloseTrade]
  repeat' split
  all_goals rfl

theorem bufnone_updateUser (s : MT4State) (r : Remote) (l : Int) (j : Option String) :
    (MT4_UpdateUser s r l j).buffer = none := by
  simp only [MT4_UpdateUser]
  repeat' split
  all_goals rfl

theorem bufnone_deleteUser (s : MT4State) (r : Remote) (l : Int) :
    (MT4_DeleteUser s r l).buffer = none := by
  simp only [MT4_DeleteUser]
  repeat' split
  all_goals rfl

theorem buf_getUserInfo (s : MT4State) (r : Remote) (l : Int) (b : Bool) (c : Int) :
    (MT4_GetUserInfo s r l b c).ret = MT4_ERROR_BUFFER_TOO_SMALL →
    (MT4_GetUserInfo s r l b c).buffer = none := by
  simp only [MT4_GetUserInfo, boundedEmit]
  repeat' split
  all_goals intro h
  all_goals first
    | rfl
    | (simp only [fail, okNoBuf, emitArr, MT4_SUCCESS, MT4_ERROR_BUFFER_TOO_SMALL,
        MT4_ERROR_INTERNAL, MT4_ERROR_NOT_CONNECTED, MT4_ERROR_INVALID_PARAMETER,
        MT4_ERROR_NOT_INITIALIZED] at h; omega)

theorem buf_getAllUsers (s : MT4State) (r : Remote) (b : Bool) (c : Int) :
    (MT4_GetAllUsers s r b c).ret = MT4_ERROR_BUFFER_TOO_SMALL →
    (MT4_GetAllUsers s r b c).buffer = none := by
  simp only [MT4_GetAllUsers, boundedEmit]
  repeat' split
  all_goals intro h
  all_goals first
    | rfl
    | (simp only [fail, okNoBuf, emitArr, MT4_SUCCESS, MT4_ERROR_BUFFER_TOO_SMALL,
        MT4_ERROR_INTERNAL, MT4_ERROR_NOT_CONNECTED, MT4_ERROR_INVALID_PARAMETER,
        MT4_ERROR_NOT_INITIALIZED] at h; omega)

theorem buf_getTrades (s : MT4State) (r : Remote) (l : Int) (b : Bool) (c : Int) :
    (MT4_GetTrades s r l b c).ret = MT4_ERROR_BUFFER_TOO_SMALL →
    (MT4_GetTrades s r l b c).buffer = none := by
  simp only [MT4_GetTrades, boundedEmit]
  repeat' split
  all_goals intro h
  all_goals first
    | rfl
    | (simp only [fail, okNoBuf, emitArr, MT4_SUCCESS, MT4_ERROR_BUFFER_TOO_SMALL,
        MT4_ERROR_INTERNAL, MT4_ERROR_NOT_CONNECTED, MT4_ERROR_INVALID_PARAMETER,
        MT4_ERROR_NOT_INITIALIZED] at h; omega)

theorem buf_openTrade (s : MT4State) (r : Remote) (l : Int) (sym : Option String)
    (cmd : Int) (v p sl tp : ℚ) (cm : Option String) (b : Bool) (c : Int) :
    (MT4_OpenTrade s r l sym cmd v p sl tp cm b c).ret = MT4_ERROR_BUFFER_TOO_SMALL →
    (MT4_OpenTrade s r l sym cmd v p sl tp cm b c).buffer = none := by
  simp only [MT4_OpenTrade, boundedEmit]
  repeat' split
  all_goals intro h
  all_goals first
    | rfl
    | (simp only [fail, okNoBuf, emitArr, MT4_SUCCESS, MT4_ERROR_BUFFER_TOO_SMALL,
        MT4_ERROR_INTERNAL, MT4_ERROR_NOT_CONNECTED, MT4_ERROR_INVALID_PARAMETER,
        MT4_ERROR_NOT_INITIALIZED] at h; omega)

theorem buf_createUser (s : MT4State) (r : Remote) (j : Option String) (b : Bool)
    (c : Int) :
    (MT4_CreateUser s r j b c).ret = MT4_ERROR_BUFFER_TOO_SMALL →
    (MT4_CreateUser s r j b c).buffer = none := by
  simp only [MT4_CreateUser, boundedEmit]
  repeat' split
  all_goals intro h
  all_goals first
    | rfl
    | (simp only [fail, okNoBuf, emitArr, MT4_SUCCESS, MT4_ERROR_BUFFER_TOO_SMALL,
        MT4_ERROR_INTERNAL, MT4_ERROR_NOT_CONNECTED, MT4_ERROR_INVALID_PARAMETER,
        MT4_ERROR_NOT_INITIALIZED] at h; omega)

theorem buf_getSymbols (s : MT4State) (r : Remote) (b : Bool) (c : Int) :
    (MT4_GetSymbols s r b c).ret = MT4_ERROR_BUFFER_TOO_SMALL →
    (MT4_GetSymbols s r b c).buffer = none := by
  simp only [MT4_GetSymbols, boundedEmit]
  repeat' split
  all_goals intro h
  all_goals first
    | rfl
    | (simp only [fail, okNoBuf, emitArr, MT4_SUCCESS, MT4_ERROR_BUFFER_TOO_SMALL,
        MT4_ERROR_INTERNAL, MT4_ERROR_NOT_CONNECTED, MT4_ERROR_INVALID_PARAMETER,
        MT4_ERROR_NOT_INITIALIZED] at h; omega)

theorem buf_getQuote (s : MT4State) (r : Remote) (sym : Option String) (b : Bool)
    (c : Int) :
    (MT4_GetQuote s r sym b c).ret = MT4_ERROR_BUFFER_TOO_SMALL →
    (MT4_GetQuote s r sym b c).buffer = none := by
  simp only [MT4_GetQuote, getQuoteTicks, boundedEmit]
  repeat' split
  all_goals intro h
  all_goals first
    | rfl
    | (simp only [fail, okNoBuf, emitArr, MT4_SUCCESS, MT4_ERROR_BUFFER_TOO_SMALL,
        MT4_ERROR_INTERNAL, MT4_ERROR_NOT_CONNECTED, MT4_ERROR_INVALID_PARAMETER,
        MT4_ERROR_NOT_INITIALIZED] at h; omega)

/-- Claim C2 counterexample: for `MT4_GetUserInfo` with one user record
and a capacity exactly one larger than the serialized text length, the
full text length including the terminator equals (hence is ≥) the
capacity, yet the operation returns success and writes the buffer — it
does not return BufferTooSmall and does not leave the buffer unmodified.
The code's boundary excludes the terminator: it fails only when the bare
text length is ≥ the capacity. -/
theorem C2_counterexample :
    (((userJson u0).length : Int) + 1 ≥ ((userJson u0).length : Int) + 1) ∧
    (MT4_GetUserInfo sLive rOneUser 7 false (((userJson u0).length : Int) + 1)).ret =
      MT4_SUCCESS ∧
    (MT4_GetUserInfo sLive rOneUser 7 false
        (((userJson u0).length : Int) + 1)).buffer = some (userJson u0) := by
  refine ⟨le_refl _, ?_, ?_⟩ <;> decide

/-- Claim C2, amended: whenever the serialized text length excluding the
terminator is ≥ the supplied capacity (equivalently, the length
including the terminator strictly exceeds it), every serializing
operation returns BufferTooSmall and leaves the caller's buffer entirely
unmodified; this holds on every output path that serializes records —
for get_quote on all three of its paths (updated-symbols, tick-data and
SymbolInfoGet fallback) — but NOT on the empty-result-set paths of the
three listing operations (list users, list trades, list symbols), which
write the empty-array form unconditionally without any capacity
check. -/
theorem C2_amended :
    (∀ s r c, (step s r c).ret = MT4_ERROR_BUFFER_TOO_SMALL →
      (step s r c).buffer = none) ∧
    (∀ (s : MT4State) (r : Remote) (l c : Int) (u : UserRecord) (us : List UserRecord),
      notInitGate s = false → ¬ c ≤ 0 → r.userRecordsReq = some (u :: us) →
      c ≤ ((userJson u).length : Int) →
      (MT4_GetUserInfo s r l false c).ret = MT4_ERROR_BUFFER_TOO_SMALL ∧
      (MT4_GetUserInfo s r l false c).buffer = none) ∧
    (∀ (s : MT4State) (r : Remote) (c : Int) (u : UserRecord) (us : List UserRecord),
      notInitGate s = false → ¬ c ≤ 0 → r.usersReq = some (u :: us) →
      c ≤ ((usersArrJson (u :: us)).length : Int) →
      (MT4_GetAllUsers s r false c).ret = MT4_ERROR_BUFFER_TOO_SMALL ∧
      (MT4_GetAllUsers s r false c).buffer = none) ∧
    (∀ (s : MT4State) (r : Remote) (l c : Int) (t : TradeRecord) (ts : List TradeRecord),
      notInitGate s = false → ¬ c ≤ 0 →
      (if 0 < l then r.tradesUserHist else r.tradesReq) = some (t :: ts) →
      c ≤ ((tradesArrJson (t :: ts)).length : Int) →
      (MT4_GetTrades s r l false c).ret = MT4_ERROR_BUFFER_TOO_SMALL ∧
      (MT4_GetTrades s r l false c).buffer = none) ∧
    (∀ (s : MT4State) (r : Remote) (l : Int) (sym : String) (cmd : Int)
      (v p sl tp : ℚ) (cm : Option String) (c : Int),
      notInitGate s = false → ¬ c ≤ 0 → r.isConnectedR = true →
      r.tradeTransRet (openTradeTrans sym cmd v p sl tp cm) = RET_OK →
      c ≤ ((orderJson r.tradeTransOrderOut).length : Int) →
      (MT4_OpenTrade s r l (some sym) cmd v p sl tp cm false c).ret =
        MT4_ERROR_BUFFER_TOO_SMALL ∧
      (MT4_OpenTrade s r l (some sym) cmd v p sl tp cm false c).buffer = none) ∧
    (∀ (s : MT4State) (r : Remote) (j : String) (c : Int),
      notInitGate s = false → ¬ c ≤ 0 → r.isConnectedR = true →
      r.userRecNew (parseUserJson j) = RET_OK →
      c ≤ ((createUserResp (parseUserJson j).login).length : Int) →
      (MT4_CreateUser s r (some j) false c).ret = MT4_ERROR_BUFFER_TOO_SMALL ∧
      (MT4_CreateUser s r (some j) false c).buffer = none) ∧
    (∀ (s : MT4State) (r : Remote) (c : Int) (cs : ConSymbol) (css : List ConSymbol),
      notInitGate s = false → ¬ c ≤ 0 → r.symbolsAll = some (cs :: css) →
      c ≤ ((symsArrJson (cs :: css)).length : Int) →
      (MT4_GetSymbols s r false c).ret = MT4_ERROR_BUFFER_TOO_SMALL ∧
      (MT4_GetSymbols s r false c).buffer = none) ∧
    (∀ (s : MT4State) (r : Remote) (sym : String) (c : Int) (t : SymbolInfo),
      notInitGate s = false → ¬ c ≤ 0 → r.isConnectedR = true →
      (r.symbolInfoUpd.take 128).find? (fun si => si.symbol == sym) = some t →
      (0 < t.bid ∨ 0 < t.ask) →
      c ≤ ((quoteJson sym t.bid t.ask t.spread t.digits t.lasttime).length : Int) →
      (MT4_GetQuote s r (some sym) false c).ret = MT4_ERROR_BUFFER_TOO_SMALL ∧
      (MT4_GetQuote s r (some sym) false c).buffer = none) ∧
    (∀ (s : MT4State) (r : Remote) (sym : String) (c : Int) (t0 : TickInfo)
      (ts : List TickInfo),
      notInitGate s = false → ¬ c ≤ 0 → r.isConnectedR = true →
      ((r.symbolInfoUpd.take 128).find? (fun si => si.symbol == sym) = none ∨
        ∃ t, (r.symbolInfoUpd.take 128).find? (fun si => si.symbol == sym) = some t ∧
          ¬ (0 < t.bid ∨ 0 < t.ask)) →
      r.tickLast sym = some (t0 :: ts) →
      c ≤ ((quoteJson sym (lastD t0 ts).bid (lastD t0 ts).ask
            (((lastD t0 ts).ask - (lastD t0 ts).bid) *
              (10 : Int) ^ ((r.symbolInfoGetR sym).getD defSymbolInfo).digits)
            ((r.symbolInfoGetR sym).getD defSymbolInfo).digits
            (lastD t0 ts).ctm).length : Int) →
      (MT4_GetQuote s r (some sym) false c).ret = MT4_ERROR_BUFFER_TOO_SMALL ∧
      (MT4_GetQuote s r (some sym) false c).buffer = none) ∧
    (∀ (s : MT4State) (r : Remote) (sym : String) (c : Int) (si : SymbolInfo),
      notInitGate s = false → ¬ c ≤ 0 → r.isConnectedR = true →
      ((r.symbolInfoUpd.take 128).find? (fun si => si.symbol == sym) = none ∨
        ∃ t, (r.symbolInfoUpd.take 128).find? (fun si => si.symbol == sym) = some t ∧
          ¬ (0 < t.bid ∨ 0 < t.ask)) →
      (r.tickLast sym = none ∨ r.tickLast sym = some []) →
      r.symbolInfoGetR sym = some si →
      c ≤ ((quoteJson sym si.bid si.ask si.spread si.digits r.now).length : Int) →
      (MT4_GetQuote s r (some sym) false c).ret = MT4_ERROR_BUFFER_TOO_SMALL ∧
      (MT4_GetQuote s r (some sym) false c).buffer = none) ∧
    (∀ (s : MT4State) (r : Remote) (c : Int),
      notInitGate s = false → ¬ c ≤ 0 →
      (r.usersReq = none ∨ r.usersReq = some []) →
      (MT4_GetAllUsers s r false c).ret = MT4_SUCCESS ∧
      (MT4_GetAllUsers s r false c).buffer = some (strcpyS c "[]")) ∧
    (∀ (s : MT4State) (r : Remote) (l c : Int),
      notInitGate s = false → ¬ c ≤ 0 →
      ((if 0 < l then r.tradesUserHist else r.tradesReq) = none ∨
        (if 0 < l then r.tradesUserHist else r.tradesReq) = some []) →
      (MT4_GetTrades s r l false c).ret = MT4_SUCCESS ∧
      (MT4_GetTrades s r l false c).buffer = some (strcpyS c "[]")) ∧
    (∀ (s : MT4State) (r : Remote) (c : Int),
      notInitGate s = false → ¬ c ≤ 0 →
      (r.symbolsAll = none ∨ r.symbolsAll = some []) →
      (MT4_GetSymbols s r false c).ret = MT4_SUCCESS ∧
      (MT4_GetSymbols s r false c).buffer = some (strcpyS c "[]")) := by
  refine ⟨?_, ?_, ?_, ?_, ?_, ?_, ?_, ?_, ?_, ?_, ?_, ?_, ?_⟩
  · intro s r c
    cases c with
    | initOp => intro h; exact bufnone_init s r
    | shutdownOp => intro h; exact bufnone_shutdown s
    | connectOp sv => intro h; exact bufnone_connect s r sv
    | loginOp l p => intro h; exact bufnone_login s r l p
    | disconnectOp => intro h; exact bufnone_disconnect s r
    | isConnectedOp => intro h; exact bufnone_isConnected s r
    | pingOp => intro h; exact bufnone_ping s r
    | getUserInfoOp l b c => exact buf_getUserInfo s r l b c
    | getAllUsersOp b c => exact buf_getAllUsers s r b c
    | getTradesOp l b c => exact buf_getTrades s r l b c
    | openTradeOp l sym cmd v p sl tp cm b c =>
      exact buf_openTrade s r l sym cmd v p sl tp cm b c
    | closeTradeOp o l p => intro h; exact bufnone_closeTrade s r o l p
    | createUserOp j b c => exact buf_createUser s r j b c
    | updateUserOp l j => intro h; exact bufnone_updateUser s r l j
    | deleteUserOp l => intro h; exact bufnone_deleteUser s r l
    | getSymbolsOp b c => exact buf_getSymbols s r b c
    | getQuoteOp sym b c => exact buf_getQuote s r sym b c
  · intro s r l c u us hg hc hreq hlen
    constructor <;> simp [MT4_GetUserInfo, hg, hc, hreq, boundedEmit, hlen, fail]
  · intro s r c u us hg hc hreq hlen
    constructor <;> simp [MT4_GetAllUsers, hg, hc, hreq, boundedEmit, hlen, fail]
  · intro s r l c t ts hg hc hreq hlen
    constructor <;> simp [MT4_GetTrades, hg, hc, hreq, boundedEmit, hlen, fail]
  · intro s r l sym cmd v p sl tp cm c hg hc hconn hok hlen
    constructor <;>
      simp [MT4_OpenTrade, hg, hc, hconn, hok, boundedEmit, hlen, fail, RET_OK]
  · intro s r j c hg hc hconn hok hlen
    constructor <;>
      simp [MT4_CreateUser, hg, hc, hconn, hok, boundedEmit, hlen, fail, RET_OK]
  · intro s r c cs css hg hc hreq hlen
    constructor <;> simp [MT4_GetSymbols, hg, hc, hreq, boundedEmit, hlen, fail]
  · intro s r sym c t hg hc hconn hfind hba hlen
    constructor <;>
      simp [MT4_GetQuote, hg, hc, hconn, hfind, hba, boundedEmit, hlen, fail]
  · intro s r sym c t0 ts hg hc hconn hfind htick hlen
    rcases hfind with hf | ⟨t, hf, hba⟩
    · constructor <;>
        simp [MT4_GetQuote, getQuoteTicks, hg, hc, hconn, hf, htick, boundedEmit,
          hlen, fail]
    · constructor <;>
        simp [MT4_GetQuote, getQuoteTicks, hg, hc, hconn, hf, hba, htick, boundedEmit,
          hlen, fail]
  · intro s r sym c si hg hc hconn hfind htick hsi hlen
    rcases hfind with hf | ⟨t, hf, hba⟩
    · rcases htick with ht | ht <;>
        (constructor <;>
          simp [MT4_GetQuote, getQuoteTicks, hg, hc, hconn, hf, ht, hsi, boundedEmit,
            hlen, fail])
    · rcases htick with ht | ht <;>
        (constructor <;>
          simp [MT4_GetQuote, getQuoteTicks, hg, hc, hconn, hf, hba, ht, hsi,
            boundedEmit, hlen, fail])
  · intro s r c hg hc hreq
    rcases hreq with h | h <;>
      (constructor <;> simp [MT4_GetAllUsers, hg, hc, h, emitArr])
  · intro s r l c hg hc hreq
    rcases hreq with h | h <;>
      (constructor <;> simp [MT4_GetTrades, hg, hc, h, emitArr])
  · intro s r c hg hc hreq
    rcases hreq with h | h <;>
      (constructor <;> simp [MT4_GetSymbols, hg, hc, h, emitArr])

/-- Witness for C2 (amended): a concrete too-small capacity makes
`MT4_GetUserInfo` fail with BufferTooSmall and leave the buffer alone. -/
theorem C2_amended_witness :
    (MT4_GetUserInfo sLive rOneUser 7 false 3).ret = MT4_ERROR_BUFFER_TOO_SMALL ∧
    (MT4_GetUserInfo sLive rOneUser 7 false 3).buffer = none :=
  C2_amended.2.1 sLive rOneUser 7 3 u0 [] (by decide) (by decide) rfl (by decide)

/-- Claim C3 evaluation at the failing input: `MT4_GetQuote` on the
tick-data path with a too-small buffer returns BufferTooSmall after
receiving a non-NULL tick block from `TickInfoLast`, yet performs no
`MemFree` at all — the release at line 946 is reached only on the
success path, so the block leaks (zero releases instead of exactly
one). -/
theorem C3_getQuote_leak_eval :
    (MT4_GetQuote sLive rQuoteLeak (some "EURUSD") false 5).ret =
      MT4_ERROR_BUFFER_TOO_SMALL ∧
    RCall.tickInfoLast "EURUSD" ∈
      (MT4_GetQuote sLive rQuoteLeak (some "EURUSD") false 5).calls ∧
    List.count RCall.memFree
      (MT4_GetQuote sLive rQuoteLeak (some "EURUSD") false 5).calls = 0 := by
  decide


/-! ## Last-error characterization lemmas (empty exactly on success) -/

theorem errIff_init (s : MT4State) (r : Remote) :
    ((MT4_Init s r).state.lastError = "" ↔ (MT4_Init s r).ret = MT4_SUCCESS) := by
  simp only [MT4_Init]
  repeat' split
  all_goals first
    | exact iff_of_true rfl rfl
    | (refine iff_of_false ?_ ?_ <;>
        simp [fail, setErr, okNoBuf, emitArr, MT4_SUCCESS, MT4_ERROR_NOT_INITIALIZED,
          MT4_ERROR_ALREADY_INITIALIZED, MT4_ERROR_CONNECTION_FAILED,
          MT4_ERROR_LOGIN_FAILED, MT4_ERROR_NOT_CONNECTED, MT4_ERROR_INVALID_PARAMETER,
          MT4_ERROR_BUFFER_TOO_SMALL, MT4_ERROR_INTERNAL])

theorem errIff_connect {r : Remote} (hd : descsNonEmpty r) (s : MT4State)
    (sv : Option String) :
    ((MT4_Connect s r sv).state.lastError = "" ↔
      (MT4_Connect s r sv).ret = MT4_SUCCESS) := by
  simp only [MT4_Connect]
  repeat' split
  all_goals first
    | exact iff_of_true rfl rfl
    | (refine iff_of_false (descOr_ne hd (by simp)) ?_
       simp [fail, MT4_SUCCESS, MT4_ERROR_CONNECTION_FAILED, MT4_ERROR_LOGIN_FAILED,
         MT4_ERROR_INTERNAL])
    | (refine iff_of_false ?_ ?_ <;>
        simp [fail, setErr, okNoBuf, emitArr, MT4_SUCCESS, MT4_ERROR_NOT_INITIALIZED,
          MT4_ERROR_ALREADY_INITIALIZED, MT4_ERROR_CONNECTION_FAILED,
          MT4_ERROR_LOGIN_FAILED, MT4_ERROR_NOT_CONNECTED, MT4_ERROR_INVALID_PARAMETER,
          MT4_ERROR_BUFFER_TOO_SMALL, MT4_ERROR_INTERNAL])

theorem errIff_login {r : Remote} (hd : descsNonEmpty r) (s : MT4State) (l : Int)
    (p : Option String) :
    ((MT4_Login s r l p).state.lastError = "" ↔
      (MT4_Login s r l p).ret = MT4_SUCCESS) := by
  simp only [MT4_Login]
  repeat' split
  all_goals first
    | exact iff_of_true rfl rfl
    | (refine iff_of_false (descOr_ne hd (by simp)) ?_
       simp [fail, MT4_SUCCESS, MT4_ERROR_CONNECTION_FAILED, MT4_ERROR_LOGIN_FAILED,
         MT4_ERROR_INTERNAL])
    | (refine iff_of_false ?_ ?_ <;>
        simp [fail, setErr, okNoBuf, emitArr, MT4_SUCCESS, MT4_ERROR_NOT_INITIALIZED,
          MT4_ERROR_ALREADY_INITIALIZED, MT4_ERROR_CONNECTION_FAILED,
          MT4_ERROR_LOGIN_FAILED, MT4_ERROR_NOT_CONNECTED, MT4_ERROR_INVALID_PARAMETER,
          MT4_ERROR_BUFFER_TOO_SMALL, MT4_ERROR_INTERNAL])

theorem errIff_getUserInfo (s : MT4State) (r : Remote) (l : Int) (b : Bool)
    (c : Int) :
    ((MT4_GetUserInfo s r l b c).state.lastError = "" ↔
      (MT4_GetUserInfo s r l b c).ret = MT4_SUCCESS) := by
  simp only [MT4_GetUserInfo, boundedEmit]
  repeat' split
  all_goals first
    | exact iff_of_true rfl rfl
    | (refine iff_of_false ?_ ?_ <;>
        simp [fail, setErr, okNoBuf, emitArr, MT4_SUCCESS, MT4_ERROR_NOT_INITIALIZED,
          MT4_ERROR_ALREADY_INITIALIZED, MT4_ERROR_CONNECTION_FAILED,
          MT4_ERROR_LOGIN_FAILED, MT4_ERROR_NOT_CONNECTED, MT4_ERROR_INVALID_PARAMETER,
          MT4_ERROR_BUFFER_TOO_SMALL, MT4_ERROR_INTERNAL])

theorem errIff_getAllUsers (s : MT4State) (r : Remote) (b : Bool) (c : Int) :
    ((MT4_GetAllUsers s r b c).state.lastError = "" ↔
      (MT4_GetAllUsers s r b c).ret = MT4_SUCCESS) := by
  simp only [MT4_GetAllUsers, boundedEmit, emitArr]
  repeat' split
  all_goals first
    | exact iff_of_true rfl rfl
    | (refine iff_of_false ?_ ?_ <;>
        simp [fail, setErr, okNoBuf, emitArr, MT4_SUCCESS, MT4_ERROR_NOT_INITIALIZED,
          MT4_ERROR_ALREADY_INITIALIZED, MT4_ERROR_CONNECTION_FAILED,
          MT4_ERROR_LOGIN_FAILED, MT4_ERROR_NOT_CONNECTED, MT4_ERROR_INVALID_PARAMETER,
          MT4_ERROR_BUFFER_TOO_SMALL, MT4_ERROR_INTERNAL])

theorem errIff_getTrades (s : MT4State) (r : Remote) (l : Int) (b : Bool) (c : Int) :
    ((MT4_GetTrades s r l b c).state.lastError = "" ↔
      (MT4_GetTrades s r l b c).ret = MT4_SUCCESS) := by
  simp only [MT4_GetTrades, boundedEmit, emitArr]
  repeat' split
  all_goals first
    | exact iff_of_true rfl rfl
    | (refine iff_of_false ?_ ?_ <;>
        simp [fail, setErr, okNoBuf, emitArr, MT4_SUCCESS, MT4_ERROR_NOT_INITIALIZED,
          MT4_ERROR_ALREADY_INITIALIZED, MT4_ERROR_CONNECTION_FAILED,
          MT4_ERROR_LOGIN_FAILED, MT4_ERROR_NOT_CONNECTED, MT4_ERROR_INVALID_PARAMETER,
          MT4_ERROR_BUFFER_TOO_SMALL, MT4_ERROR_INTERNAL])

theorem errIff_openTrade {r : Remote} (hd : descsNonEmpty r) (s : MT4State) (l : Int)
    (sym : Option String) (cmd : Int) (v p sl tp : ℚ) (cm : Option String) (b : Bool)
    (c : Int) :
    ((MT4_OpenTrade s r l sym cmd v p sl tp cm b c).state.lastError = "" ↔
      (MT4_OpenTrade s r l sym cmd v p sl tp cm b c).ret = MT4_SUCCESS) := by
  simp only [MT4_OpenTrade, boundedEmit]
  repeat' split
  all_goals first
    | exact iff_of_true rfl rfl
    | (refine iff_of_false (descOr_ne hd (by simp)) ?_
       simp [fail, MT4_SUCCESS, MT4_ERROR_CONNECTION_FAILED, MT4_ERROR_LOGIN_FAILED,
         MT4_ERROR_INTERNAL])
    | (refine iff_of_false ?_ ?_ <;>
        simp [fail, setErr, okNoBuf, emitArr, MT4_SUCCESS, MT4_ERROR_NOT_INITIALIZED,
          MT4_ERROR_ALREADY_INITIALIZED, MT4_ERROR_CONNECTION_FAILED,
          MT4_ERROR_LOGIN_FAILED, MT4_ERROR_NOT_CONNECTED, MT4_ERROR_INVALID_PARAMETER,
          MT4_ERROR_BUFFER_TOO_SMALL, MT4_ERROR_INTERNAL])

theorem errIff_closeTrade {r : Remote} (hd : descsNonEmpty r) (s : MT4State)
    (o : Int) (l p : ℚ) :
    ((MT4_CloseTrade s r o l p).state.lastError = "" ↔
      (MT4_CloseTrade s r o l p).ret = MT4_SUCCESS) := by
  simp only [MT4_CloseTrade]
  repeat' split
  all_goals first
    | exact iff_of_true rfl rfl
    | (refine iff_of_false (descOr_ne hd (by simp)) ?_
       simp [fail, MT4_SUCCESS, MT4_ERROR_CONNECTION_FAILED, MT4_ERROR_LOGIN_FAILED,
         MT4_ERROR_INTERNAL])
    | (refine iff_of_false ?_ ?_ <;>
        simp [fail, setErr, okNoBuf, emitArr, MT4_SUCCESS, MT4_ERROR_NOT_INITIALIZED,
          MT4_ERROR_ALREADY_INITIALIZED, MT4_ERROR_CONNECTION_FAILED,
          MT4_ERROR_LOGIN_FAILED, MT4_ERROR_NOT_CONNECTED, MT4_ERROR_INVALID_PARAMETER,
          MT4_ERROR_BUFFER_TOO_SMALL, MT4_ERROR_INTERNAL])

theorem errIff_createUser {r : Remote} (hd : descsNonEmpty r) (s : MT4State)
    (j : Option String) (b : Bool) (c : Int) :
    ((MT4_CreateUser s r j b c).state.lastError = "" ↔
      (MT4_CreateUser s r j b c).ret = MT4_SUCCESS) := by
  simp only [MT4_CreateUser, boundedEmit]
  repeat' split
  all_goals first
    | exact iff_of_true rfl rfl
    | (refine iff_of_false (descOr_ne hd (by simp)) ?_
       simp [fail, MT4_SUCCESS, MT4_ERROR_CONNECTION_FAILED, MT4_ERROR_LOGIN_FAILED,
         MT4_ERROR_INTERNAL])
    | (refine iff_of_false ?_ ?_ <;>
        simp [fail, setErr, okNoBuf, emitArr, MT4_SUCCESS, MT4_ERROR_NOT_INITIALIZED,
          MT4_ERROR_ALREADY_INITIALIZED, MT4_ERROR_CONNECTION_FAILED,
          MT4_ERROR_LOGIN_FAILED, MT4_ERROR_NOT_CONNECTED, MT4_ERROR_INVALID_PARAMETER,
          MT4_ERROR_BUFFER_TOO_SMALL, MT4_ERROR_INTERNAL])

theorem errIff_updateUser {r : Remote} (hd : descsNonEmpty r) (s : MT4State)
    (l : Int) (j : Option String) :
    ((MT4_UpdateUser s r l j).state.lastError = "" ↔
      (MT4_UpdateUser s r l j).ret = MT4_SUCCESS) := by
  simp only [MT4_UpdateUser]
  repeat' split
  all_goals first
    | exact iff_of_true rfl rfl
    | (refine iff_of_false (descOr_ne hd (by simp)) ?_
       simp [fail, MT4_SUCCESS, MT4_ERROR_CONNECTION_FAILED, MT4_ERROR_LOGIN_FAILED,
         MT4_ERROR_INTERNAL])
    | (refine iff_of_false ?_ ?_ <;>
        simp [fail, setErr, okNoBuf, emitArr, MT4_SUCCESS, MT4_ERROR_NOT_INITIALIZED,
          MT4_ERROR_ALREADY_INITIALIZED, MT4_ERROR_CONNECTION_FAILED,
          MT4_ERROR_LOGIN_FAILED, MT4_ERROR_NOT_CONNECTED, MT4_ERROR_INVALID_PARAMETER,
          MT4_ERROR_BUFFER_TOO_SMALL, MT4_ERROR_INTERNAL])

theorem errIff_deleteUser {r : Remote} (hd : descsNonEmpty r) (s : MT4State)
    (l : Int) :
    ((MT4_DeleteUser s r l).state.lastError = "" ↔
      (MT4_DeleteUser s r l).ret = MT4_SUCCESS) := by
  simp only [MT4_DeleteUser]
  repeat' split
  all_goals first
    | exact iff_of_true rfl rfl
    | (refine iff_of_false (descOr_ne hd (by simp)) ?_
       simp [fail, MT4_SUCCESS, MT4_ERROR_CONNECTION_FAILED, MT4_ERROR_LOGIN_FAILED,
         MT4_ERROR_INTERNAL])
    | (refine iff_of_false ?_ ?_ <;>
        simp [fail, setErr, okNoBuf, emitArr, MT4_SUCCESS, MT4_ERROR_NOT_INITIALIZED,
          MT4_ERROR_ALREADY_INITIALIZED, MT4_ERROR_CONNECTION_FAILED,
          MT4_ERROR_LOGIN_FAILED, MT4_ERROR_NOT_CONNECTED, MT4_ERROR_INVALID_PARAMETER,
          MT4_ERROR_BUFFER_TOO_SMALL, MT4_ERROR_INTERNAL])

theorem errIff_getSymbols (s : MT4State) (r : Remote) (b : Bool) (c : Int) :
    ((MT4_GetSymbols s r b c).state.lastError = "" ↔
      (MT4_GetSymbols s r b c).ret = MT4_SUCCESS) := by
  simp only [MT4_GetSymbols, boundedEmit, emitArr]
  repeat' split
  all_goals first
    | exact iff_of_true rfl rfl
    | (refine iff_of_false ?_ ?_ <;>
        simp [fail, setErr, okNoBuf, emitArr, MT4_SUCCESS, MT4_ERROR_NOT_INITIALIZED,
          MT4_ERROR_ALREADY_INITIALIZED, MT4_ERROR_CONNECTION_FAILED,
          MT4_ERROR_LOGIN_FAILED, MT4_ERROR_NOT_CONNECTED, MT4_ERROR_INVALID_PARAMETER,
          MT4_ERROR_BUFFER_TOO_SMALL, MT4_ERROR_INTERNAL])

theorem errIff_getQuote (s : MT4State) (r : Remote) (sym : Option String) (b : Bool)
    (c : Int) :
    ((MT4_GetQuote s r sym b c).state.lastError = "" ↔
      (MT4_GetQuote s r sym b c).ret = MT4_SUCCESS) := by
  simp only [MT4_GetQuote, getQuoteTicks, boundedEmit]
  repeat' split
  all_goals first
    | exact iff_of_true rfl rfl
    | (refine iff_of_false ?_ ?_ <;>
        simp [fail, setErr, okNoBuf, emitArr, MT4_SUCCESS, MT4_ERROR_NOT_INITIALIZED,
          MT4_ERROR_ALREADY_INITIALIZED, MT4_ERROR_CONNECTION_FAILED,
          MT4_ERROR_LOGIN_FAILED, MT4_ERROR_NOT_CONNECTED, MT4_ERROR_INVALID_PARAMETER,
          MT4_ERROR_BUFFER_TOO_SMALL, MT4_ERROR_INTERNAL])

/-- Claim C4 counterexample: `MT4_Ping` on a connected session whose
last-error text is stale returns the success code WITHOUT rewriting the
text — after the call the session still carries the non-empty stale
message, contradicting "set to the empty string exactly when the
operation returns the success code" for every public operation. -/
theorem C4_counterexample :
    (MT4_Ping sStale rConn).ret = MT4_SUCCESS ∧
    (MT4_Ping sStale rConn).state.lastError = "stale" := by
  decide

/-- Claim C4, amended: excluding `MT4_IsConnected` (which never touches
the last-error text), `MT4_Ping` (which leaves it unchanged once
dispatched past its connection check) and `MT4_Disconnect` (which clears
it even when reporting an error), every public operation leaves the
session's last-error text empty exactly when it returns the success
code, provided every remote-supplied error description, when present, is
non-empty. -/
theorem C4_amended (s : MT4State) (r : Remote) (c : Call)
    (hd : descsNonEmpty r) (hex : exemptC4 c = false) :
    ((step s r c).state.lastError = "" ↔ (step s r c).ret = MT4_SUCCESS) := by
  cases c with
  | initOp => exact errIff_init s r
  | shutdownOp => exact iff_of_true rfl rfl
  | connectOp sv => exact errIff_connect hd s sv
  | loginOp l p => exact errIff_login hd s l p
  | disconnectOp => simp [exemptC4] at hex
  | isConnectedOp => simp [exemptC4] at hex
  | pingOp => simp [exemptC4] at hex
  | getUserInfoOp l b c => exact errIff_getUserInfo s r l b c
  | getAllUsersOp b c => exact errIff_getAllUsers s r b c
  | getTradesOp l b c => exact errIff_getTrades s r l b c
  | openTradeOp l sym cmd v p sl tp cm b c =>
    exact errIff_openTrade hd s l sym cmd v p sl tp cm b c
  | closeTradeOp o l p => exact errIff_closeTrade hd s o l p
  | createUserOp j b c => exact errIff_createUser hd s j b c
  | updateUserOp l j => exact errIff_updateUser hd s l j
  | deleteUserOp l => exact errIff_deleteUser hd s l
  | getSymbolsOp b c => exact errIff_getSymbols s r b c
  | getQuoteOp sym b c => exact errIff_getQuote s r sym b c

/-- Witness for C4 (amended): the user-info fetch at an uninitialized
session reports NotInitialized and accordingly non-empty last-error
text. -/
theorem C4_amended_witness :
    ((step initState rBase (Call.getUserInfoOp 7 false 64)).state.lastError = "" ↔
      (step initState rBase (Call.getUserInfoOp 7 false 64)).ret = MT4_SUCCESS) :=
  C4_amended initState rBase (Call.getUserInfoOp 7 false 64)
    (fun k d h => by simp [rBase] at h) rfl

/-- Claim C5 counterexample: `MT4_GetQuote` on an initialized but
disconnected session, called with a NULL symbol, NULL buffer and
non-positive capacity, returns NotConnected — not InvalidParameter — and
the defensive connection check has already performed a remote
`IsConnected` call before any parameter validation. -/
theorem C5_counterexample :
    (MT4_GetQuote sLive rBase none true 0).ret = MT4_ERROR_NOT_CONNECTED ∧
    (MT4_GetQuote sLive rBase none true 0).calls = [RCall.isConnectedQ] := by
  decide

/-- Claim C5, amended: every public operation except `MT4_GetQuote`
validates its local parameter preconditions (non-NULL pointers, positive
buffer capacity) and returns InvalidParameter — with no remote call, not
even the defensive connection check — whatever the oracle says, so a
NULL required pointer while disconnected yields InvalidParameter there.
`MT4_GetQuote` alone performs the defensive connection check first, so a
NULL pointer while disconnected yields NotConnected. -/
theorem C5_amended :
    (∀ (s : MT4State) (r : Remote), s.initFlag = true → s.managerLive = true →
      MT4_Connect s r none =
        fail s MT4_ERROR_INVALID_PARAMETER "Invalid server parameter" []) ∧
    (∀ (s : MT4State) (r : Remote) (l : Int), s.initFlag = true →
      s.managerLive = true →
      MT4_Login s r l none =
        fail s MT4_ERROR_INVALID_PARAMETER "Invalid password parameter" []) ∧
    (∀ (s : MT4State) (r : Remote) (l : Int) (b : Bool) (c : Int),
      s.initFlag = true → s.managerLive = true → (b = true ∨ c ≤ 0) →
      MT4_GetUserInfo s r l b c =
        fail s MT4_ERROR_INVALID_PARAMETER "Invalid buffer parameter" []) ∧
    (∀ (s : MT4State) (r : Remote) (b : Bool) (c : Int),
      s.initFlag = true → s.managerLive = true → (b = true ∨ c ≤ 0) →
      MT4_GetAllUsers s r b c =
        fail s MT4_ERROR_INVALID_PARAMETER "Invalid buffer parameter" []) ∧
    (∀ (s : MT4State) (r : Remote) (l : Int) (b : Bool) (c : Int),
      s.initFlag = true → s.managerLive = true → (b = true ∨ c ≤ 0) →
      MT4_GetTrades s r l b c =
        fail s MT4_ERROR_INVALID_PARAMETER "Invalid buffer parameter" []) ∧
    (∀ (s : MT4State) (r : Remote) (l : Int) (sym : Option String) (cmd : Int)
      (v p sl tp : ℚ) (cm : Option String) (b : Bool) (c : Int),
      s.initFlag = true → s.managerLive = true →
      (sym = none ∨ b = true ∨ c ≤ 0) →
      MT4_OpenTrade s r l sym cmd v p sl tp cm b c =
        fail s MT4_ERROR_INVALID_PARAMETER "Invalid parameters" []) ∧
    (∀ (s : MT4State) (r : Remote) (j : Option String) (b : Bool) (c : Int),
      s.initFlag = true → s.managerLive = true →
      (j = none ∨ b = true ∨ c ≤ 0) →
      MT4_CreateUser s r j b c =
        fail s MT4_ERROR_INVALID_PARAMETER "Invalid parameters" []) ∧
    (∀ (s : MT4State) (r : Remote) (l : Int), s.initFlag = true →
      s.managerLive = true →
      MT4_UpdateUser s r l none =
        fail s MT4_ERROR_INVALID_PARAMETER "Invalid parameters" []) ∧
    (∀ (s : MT4State) (r : Remote) (b : Bool) (c : Int),
      s.initFlag = true → s.managerLive = true → (b = true ∨ c ≤ 0) →
      MT4_GetSymbols s r b c =
        fail s MT4_ERROR_INVALID_PARAMETER "Invalid buffer parameter" []) ∧
    (∀ (s : MT4State) (r : Remote) (sym : Option String) (b : Bool) (c : Int),
      s.initFlag = true → s.managerLive = true → r.isConnectedR = false →
      MT4_GetQuote s r sym b c =
        fail s MT4_ERROR_NOT_CONNECTED "Not connected to MT4 server"
          [RCall.isConnectedQ]) := by
  refine ⟨?_, ?_, ?_, ?_, ?_, ?_, ?_, ?_, ?_, ?_⟩
  · intro s r hI hM
    simp [MT4_Connect, notInitGate_false hI hM]
  · intro s r l hI hM
    simp [MT4_Login, notInitGate_false hI hM]
  · intro s r l b c hI hM hbad
    simp [MT4_GetUserInfo, notInitGate_false hI hM, hbad]
  · intro s r b c hI hM hbad
    simp [MT4_GetAllUsers, notInitGate_false hI hM, hbad]
  · intro s r l b c hI hM hbad
    simp [MT4_GetTrades, notInitGate_false hI hM, hbad]
  · intro s r l sym cmd v p sl tp cm b c hI hM hbad
    simp [MT4_OpenTrade, notInitGate_false hI hM, hbad]
  · intro s r j b c hI hM hbad
    simp [MT4_CreateUser, notInitGate_false hI hM, hbad]
  · intro s r l hI hM
    simp [MT4_UpdateUser, notInitGate_false hI hM]
  · intro s r b c hI hM hbad
    simp [MT4_GetSymbols, notInitGate_false hI hM, hbad]
  · intro s r sym b c hI hM hC
    simp [MT4_GetQuote, notInitGate_false hI hM, hC]

/-- Witness for C5 (amended): a NULL user-info buffer on a live but
disconnected session yields InvalidParameter with no remote call. -/
theorem C5_amended_witness :
    MT4_GetUserInfo sLive rBase 7 true 64 =
      fail sLive MT4_ERROR_INVALID_PARAMETER "Invalid buffer parameter" [] :=
  C5_amended.2.2.1 sLive rBase 7 true 64 rfl rfl (Or.inl rfl)

set_option maxRecDepth 8000 in
/-- Claim C6 counterexample: connect on an initialized session with an
EMPTY (non-NULL) server address is not rejected as InvalidParameter —
the empty string passes the NULL-only check, a remote connect attempt is
performed on it, and the call reports ConnectionFailed when the remote
refuses. -/
theorem C6_counterexample :
    (MT4_Connect sLive rConnFail (some "")).ret = MT4_ERROR_CONNECTION_FAILED ∧
    RCall.connect "" ∈ (MT4_Connect sLive rConnFail (some "")).calls := by
  decide

/-- Claim C6, amended: when the session is initialized, connect called
with a NULL server address returns InvalidParameter and performs no
remote connect attempt (an empty but non-NULL address is instead passed
through to the remote connect); when the session is not initialized,
connect returns NotInitialized with no remote call. -/
theorem C6_amended :
    (∀ (s : MT4State) (r : Remote), s.initFlag = true → s.managerLive = true →
      MT4_Connect s r none =
        fail s MT4_ERROR_INVALID_PARAMETER "Invalid server parameter" []) ∧
    (∀ (s : MT4State) (r : Remote) (sv : Option String), s.initFlag = false →
      MT4_Connect s r sv =
        fail s MT4_ERROR_NOT_INITIALIZED "Not initialized" []) := by
  constructor
  · intro s r hI hM
    simp [MT4_Connect, notInitGate_false hI hM]
  · intro s r sv hI
    exact gate_connect r sv (notInitGate_true hI)

/-- Witness for C6 (amended): the NULL-address rejection at a concrete
live session, and the NotInitialized gate at the start state. -/
theorem C6_amended_witness :
    MT4_Connect sLive rBase none =
      fail sLive MT4_ERROR_INVALID_PARAMETER "Invalid server parameter" [] ∧
    MT4_Connect initState rBase (some "srv") =
      fail initState MT4_ERROR_NOT_INITIALIZED "Not initialized" [] :=
  ⟨C6_amended.1 sLive rBase rfl rfl, C6_amended.2 initState rBase (some "srv") rfl⟩

/-- Claim C7: on an initialized, connected session, close_trade with an
order id whose remote lookup fails returns InternalError, sets the
last-error text to "Trade not found" (indicating the order was not
found), and makes no trade transaction call to the remote capability. -/
theorem C7_close_missing_order (s : MT4State) (r : Remote) (order : Int)
    (lots price : ℚ) (hI : s.initFlag = true) (hM : s.managerLive = true)
    (hC : r.isConnectedR = true) (hGet : r.tradeRecGet order = none) :
    MT4_CloseTrade s r order lots price =
      fail s MT4_ERROR_INTERNAL "Trade not found"
        [RCall.isConnectedQ, RCall.tradeRecordGet order] ∧
    ∀ t, RCall.tradeTransaction t ∉ (MT4_CloseTrade s r order lots price).calls := by
  have heq : MT4_CloseTrade s r order lots price =
      fail s MT4_ERROR_INTERNAL "Trade not found"
        [RCall.isConnectedQ, RCall.tradeRecordGet order] := by
    simp [MT4_CloseTrade, notInitGate_false hI hM, hC, hGet]
  refine ⟨heq, ?_⟩
  intro t
  rw [heq]
  simp [fail]

/-- Witness for C7: a concrete connected session and an oracle whose
order lookup always fails. -/
theorem C7_close_missing_order_witness :
    MT4_CloseTrade sLive rConn 9 0 0 =
      fail sLive MT4_ERROR_INTERNAL "Trade not found"
        [RCall.isConnectedQ, RCall.tradeRecordGet 9] ∧
    ∀ t, RCall.tradeTransaction t ∉ (MT4_CloseTrade sLive rConn 9 0 0).calls :=
  C7_close_missing_order sLive rConn 9 0 0 rfl rfl rfl rfl

/-- Claim C8: the lot-to-integer-volume translation used when building
open and close trade transactions — `(int)(volume * 100)` on IEEE-754
doubles, i.e. truncation toward zero of the rounded double product as a
32-bit conversion — maps the double nearest 1.5 (which is exactly 3/2)
to integer volume 150 and the double nearest 0.01 to integer volume 1. -/
theorem C8_lot_conversion :
    lotsToVolume (fl (3 / 2 : ℚ)) = 150 ∧ lotsToVolume (fl (1 / 100 : ℚ)) = 1 :=
  ⟨lotsToVolume_three_halves, lotsToVolume_centi⟩

set_option maxRecDepth 8000 in
/-- Claim C9: create_account on input `{"login":4242,"password":"x",
"group":"g"}` — which lacks the `"name"` key marker — leaves the
record's name field at its default empty value without any error, and
with a sufficient buffer and a remote that accepts the record the call
returns success with output text containing `"login":4242`. -/
theorem C9_create_account (s : MT4State) (r : Remote) (cap : Int)
    (hI : s.initFlag = true) (hM : s.managerLive = true)
    (hC : r.isConnectedR = true) (hNew : ∀ u, r.userRecNew u = RET_OK)
    (hcap : 100 ≤ cap) :
    findSub C9input "\"name\":\"" = none ∧
    (parseUserJson C9input).name = "" ∧
    (parseUserJson C9input).login = 4242 ∧
    (MT4_CreateUser s r (some C9input) false cap).ret = MT4_SUCCESS ∧
    (MT4_CreateUser s r (some C9input) false cap).buffer = some C9out ∧
    (findSub C9out "\"login\":4242").isSome = true ∧
    RCall.userRecordNew (parseUserJson C9input) ∈
      (MT4_CreateUser s r (some C9input) false cap).calls := by
  have hg := notInitGate_false hI hM
  have hc0 : ¬ cap ≤ 0 := by omega
  have hlen29 : ((createUserResp (parseUserJson C9input).login).length : Int) = 29 := by
    decide
  have hlen : ¬ cap ≤ ((createUserResp (parseUserJson C9input).login).length : Int) := by
    omega
  have hout : createUserResp (parseUserJson C9input).login = C9out := by decide
  refine ⟨by decide, by decide, by decide, ?_, ?_, by decide, ?_⟩
  · simp [MT4_CreateUser, hg, hc0, hC, hNew, boundedEmit, hlen]
  · have hlenOut : ¬ cap ≤ ((C9out.length : Nat) : Int) := by
      rw [← hout]; exact hlen
    simp [MT4_CreateUser, hg, hc0, hC, hNew, boundedEmit, hlen, hout, hlenOut]
  · simp [MT4_CreateUser, hg, hc0, hC, hNew, boundedEmit, hlen]

/-- Witness for C9: concrete live session, accepting oracle, capacity
256. -/
theorem C9_create_account_witness :
    findSub C9input "\"name\":\"" = none ∧
    (parseUserJson C9input).name = "" ∧
    (parseUserJson C9input).login = 4242 ∧
    (MT4_CreateUser sLive rConn (some C9input) false 256).ret = MT4_SUCCESS ∧
    (MT4_CreateUser sLive rConn (some C9input) false 256).buffer = some C9out ∧
    (findSub C9out "\"login\":4242").isSome = true ∧
    RCall.userRecordNew (parseUserJson C9input) ∈
      (MT4_CreateUser sLive rConn (some C9input) false 256).calls :=
  C9_create_account sLive rConn 256 rfl rfl rfl (fun u => rfl) (by omega)

/-- Claim C10: open_trade's observable behaviour — the transaction
passed to the remote, the status code, the buffer content and the
last-error text (the entire operation result, remote trace included) —
is identical for any two login arguments that agree on everything else:
the login parameter is ignored (source comment at MT4Wrapper.cpp line
452). -/
theorem C10_login_noninterference (s : MT4State) (r : Remote) (l1 l2 : Int)
    (sym : Option String) (cmd : Int) (v p sl tp : ℚ) (cm : Option String)
    (b : Bool) (c : Int) :
    MT4_OpenTrade s r l1 sym cmd v p sl tp cm b c =
      MT4_OpenTrade s r l2 sym cmd v p sl tp cm b c := rfl
